import Mathlib

set_option maxHeartbeats 1000000
set_option maxRecDepth 4000

/- Formal model of the Track_bot repository (src/bot.py): a Telegram dispatch
bot connecting drivers and managers.  The model is a shallow embedding: the
database tables become Lean lists, each aiogram handler becomes a pure
function from bot state to bot state plus the replies it sends, and the
dispatcher becomes a step function routing an inbound event to the first
matching handler in registration order, exactly as aiogram does.  Timestamps
are modelled by a logical clock that advances by one per inbound event
(SQL NOW() returns the current clock value). -/

namespace TrackBot

/- ---------------- String helpers modelling the Python operations ---------------- -/

/-- Whitespace characters removed by the Python str.strip() calls in bot.py
(ASCII whitespace; the handlers are only ever applied to chat text). -/
def pyIsSpace (c : Char) : Bool :=
  c == ' ' || c == '\t' || c == '\n' || c == '\r' || c == '\x0b' || c == '\x0c'

/-- Strip trailing whitespace of a character list. -/
def stripEnd (cs : List Char) : List Char :=
  (cs.reverse.dropWhile pyIsSpace).reverse

/-- Python str.strip(): drop whitespace from both ends. -/
def pyStripChars (cs : List Char) : List Char :=
  stripEnd (cs.dropWhile pyIsSpace)

/-- Python str.strip() on strings. -/
def pyStrip (s : String) : String := ⟨pyStripChars s.data⟩

/-- ASCII decimal digit, as matched by the regex class d in bot.py patterns. -/
def isAsciiDigit (c : Char) : Bool :=
  decide (48 ≤ c.toNat) && decide (c.toNat ≤ 57)

/-- Python str.isdigit(): non-empty and all digits. -/
def pyIsDigit (s : String) : Bool :=
  !s.data.isEmpty && s.data.all isAsciiDigit

/-- Python int() on a digit string. -/
def digitsToNat (cs : List Char) : Nat :=
  cs.foldl (fun n c => n * 10 + (c.toNat - 48)) 0

/-- Body of PHONE_PATTERN after the optional leading plus:
first digit 1-9 followed by 9 to 14 further digits. -/
def phoneDigits : List Char → Bool
  | [] => false
  | c :: rest =>
      decide (49 ≤ c.toNat) && decide (c.toNat ≤ 57) && rest.all isAsciiDigit &&
      decide (9 ≤ rest.length) && decide (rest.length ≤ 14)

/-- PHONE_PATTERN from bot.py: optional leading plus, leading digit 1-9,
10 to 15 digits in total (anchored match). -/
def phoneMatch (s : String) : Bool :=
  match s.data with
  | '+' :: rest => phoneDigits rest
  | cs => phoneDigits cs

/-- BOL_PATTERN from bot.py: 8 to 12 ASCII digits (anchored match). -/
def bolMatch (s : String) : Bool :=
  s.data.all isAsciiDigit && decide (8 ≤ s.data.length) && decide (s.data.length ≤ 12)

/-- ASCII lower-casing of a character, modelling Python str.lower() on the
inputs relevant here (the denylist tokens are ASCII letters or non-letters). -/
def asciiLower (c : Char) : Char :=
  if 65 ≤ c.toNat ∧ c.toNat ≤ 90 then Char.ofNat (c.toNat + 32) else c

/-- Python str.lower(), character-wise. -/
def pyLower (s : String) : String := ⟨s.data.map asciiLower⟩

/-- Does the pattern occur at the head of the list. -/
def startsWithL : List Char → List Char → Bool
  | [], _ => true
  | _ :: _, [] => false
  | p :: ps, c :: cs => p == c && startsWithL ps cs

/-- Substring containment, modelling the Python expression (x in s). -/
def containsSubL (pat : List Char) : List Char → Bool
  | [] => pat.isEmpty
  | c :: cs => startsWithL pat (c :: cs) || containsSubL pat cs

/-- The fixed denylist appearing three times in bot.py.  The byte content of
the source file is reproduced verbatim (the last two tokens are the
mis-decoded emoji exactly as written in the source). -/
def spamTokens : List String := ["vpn", "http", "arturshi", "üîí", "üî•"]

/-- The content filter applied to one text field in bot.py:
any(x in field.lower() for x in spamTokens). -/
def isSpamField (f : String) : Bool :=
  spamTokens.any (fun x => containsSubL x.data (pyLower f).data)

/- ---------------- Data model: the two tables, sessions, events ---------------- -/

/-- A row of the tasks table created by setup_db. -/
structure Task where
  taskId : Nat
  driverId : Nat
  taskType : String
  status : String
  managerId : Option Nat
  bolNumber : Option String
  trailerNumber : Option String
  createdAt : Nat
  updatedAt : Nat
deriving Repr, DecidableEq

/-- A row of the drivers table created by setup_db (the internal SERIAL id is
never read by the code and is not modelled). -/
structure Driver where
  driverId : Nat
  company : String
  fullName : String
  phone : String
  truckNumber : String
deriving Repr, DecidableEq

/-- The aiogram FSM states of DriverStates. -/
inductive DState
  | REG_COMPANY | REG_FULL_NAME | REG_PHONE | REG_TRUCK
  | EDIT_COMPANY | EDIT_FULL_NAME | EDIT_PHONE | EDIT_TRUCK
  | SEND_TASK_ID | SEND_BOL | SEND_TRAILER
deriving Repr, DecidableEq

/-- The per-user FSM data accumulator (state.update_data keys used in bot.py). -/
structure SessionData where
  company : Option String
  fullName : Option String
  phone : Option String
  taskId : Option Nat
  bol : Option String
deriving Repr, DecidableEq

/-- A per-user aiogram FSM session: current state and accumulated data. -/
structure Session where
  dstate : Option DState
  data : SessionData
deriving Repr, DecidableEq

def emptySessionData : SessionData := ⟨none, none, none, none, none⟩

def emptySession : Session := ⟨none, emptySessionData⟩

/-- Whole bot state: both tables, the MemoryStorage sessions, and the clock. -/
structure BotState where
  drivers : List Driver
  tasks : List Task
  sessions : Nat → Session
  now : Nat

/-- Outbound effects of one handler, in emission order. -/
inductive Reply
  | toInvoker (text : String)
  | toUser (userId : Nat) (text : String)
  | toManagerGroup (text : String)
  | editManagerMsg (text : String)
deriving Repr, DecidableEq

/-- Inbound events: a text message from a user, or one of the two callback
buttons (the callback data strings take_id and finish_id are modelled
pre-parsed; the from_user full name is carried for the notification texts). -/
inductive Event
  | msg (userId : Nat) (text : String)
  | takeCb (managerId : Nat) (managerName : String) (taskId : Nat)
  | finishCb (managerId : Nat) (managerName : String) (taskId : Nat)
deriving Repr, DecidableEq

/- ---------------- Store operations ---------------- -/

/-- SELECT * FROM tasks WHERE task_id = $1. -/
def findTask (l : List Task) (tid : Nat) : Option Task :=
  l.find? (fun t => t.taskId == tid)

/-- SELECT * FROM drivers WHERE driver_id = $1. -/
def findDriver (l : List Driver) (uid : Nat) : Option Driver :=
  l.find? (fun d => d.driverId == uid)

/-- SELECT * FROM tasks WHERE task_id AND driver_id AND status = in_progress. -/
def findTaskOwned (l : List Task) (tid uid : Nat) : Option Task :=
  l.find? (fun t => t.taskId == tid && t.driverId == uid && t.status == "in_progress")

/-- The SERIAL task id the next INSERT will receive (no row is ever deleted). -/
def nextTaskId (l : List Task) : Nat :=
  l.foldr (fun t m => max t.taskId m) 0 + 1

/-- A raw UPDATE tasks SET ... WHERE task_id = $n that does not touch
updated_at (the direct conn.execute in take_task). -/
def updateTasks (l : List Task) (tid : Nat) (f : Task → Task) : List Task :=
  l.map (fun t => if t.taskId = tid then f t else t)

/-- The update_task helper of bot.py: applies the field changes and always
also sets updated_at = NOW(). -/
def update_task (l : List Task) (tid now : Nat) (f : Task → Task) : List Task :=
  updateTasks l tid (fun t => { f t with updatedAt := now })

/-- UPDATE drivers SET company, full_name, phone, truck_number WHERE driver_id. -/
def updateDriverRow (l : List Driver) (uid : Nat) (c fn ph tr : String) : List Driver :=
  l.map (fun d => if d.driverId = uid then
    { d with company := c, fullName := fn, phone := ph, truckNumber := tr } else d)

def getSession (ss : Nat → Session) (u : Nat) : Session := ss u

def setSession (ss : Nat → Session) (u : Nat) (s : Session) : Nat → Session :=
  fun v => if v = u then s else ss v

/-- aiogram state.clear(): resets both the state and the data of the session. -/
def clearSession (ss : Nat → Session) (u : Nat) : Nat → Session :=
  setSession ss u emptySession

/- ---------------- Handlers (one per aiogram handler in bot.py) ---------------- -/

/-- The seven task-type menu labels routed to create_task. -/
def taskTypeLabels : List String :=
  ["New Shift", "New Cycle", "Reset Break", "Add Time", "Check", "Load", "Contact Me"]

/-- Handler create_task: insert a task for a registered driver and announce it
in the manager group with a Take Task button. -/
def create_task (st : BotState) (uid : Nat) (text : String) : BotState × List Reply :=
  match findDriver st.drivers uid with
  | none => (st, [.toInvoker "Please register first!"])
  | some d =>
      let tid := nextTaskId st.tasks
      let t : Task :=
        { taskId := tid, driverId := uid, taskType := text, status := "created",
          managerId := none, bolNumber := none, trailerNumber := none,
          createdAt := st.now, updatedAt := st.now }
      ({ st with tasks := st.tasks ++ [t] },
       [.toManagerGroup ("üì© New Task from " ++ d.fullName ++ " (" ++ d.company ++
          "):\nType: " ++ text),
        .toInvoker "We are working on your log book. Please wait."])

/-- Handler take_task: fetch the task, screen its text fields through the
content filter, require status created, then set status = in_progress and
manager_id with a direct UPDATE that does not refresh updated_at. -/
def take_task (st : BotState) (managerId : Nat) (managerName : String) (taskId : Nat) :
    BotState × List Reply :=
  match findTask st.tasks taskId with
  | none => (st, [.toInvoker "Task not found."])
  | some task =>
      let textFields : List String :=
        [task.taskType, task.status, task.bolNumber.getD "", task.trailerNumber.getD ""]
      if textFields.any isSpamField then
        (st, [.toInvoker "This task is not available."])
      else if task.status ≠ "created" then
        (st, [.toInvoker "Task is already taken or completed."])
      else
        let tasks' := updateTasks st.tasks taskId
          (fun t => { t with status := "in_progress", managerId := some managerId })
        let st' := { st with tasks := tasks' }
        match findDriver st.drivers task.driverId with
        | none =>
            -- the driver row is fetched for the edited manager message; a missing
            -- row raises inside the f-string and is caught after the UPDATE ran
            (st', [.toInvoker "An error occurred"])
        | some d =>
            (st', [.editManagerMsg ("üì© Task taken by " ++ managerName ++ ":\nType: " ++
                     task.taskType ++ "\nDriver: " ++ d.fullName ++ " (" ++ d.company ++ ")"),
                   .toUser task.driverId ("Your task (" ++ task.taskType ++
                     ") has been taken by " ++ managerName ++ "!"),
                   .toInvoker "Task taken!"])

/-- Handler finish_task: only the stored manager may complete; the update goes
through update_task and therefore refreshes updated_at. -/
def finish_task (st : BotState) (managerId : Nat) (managerName : String) (taskId : Nat) :
    BotState × List Reply :=
  match findTask st.tasks taskId with
  | none =>
      -- task None: the subscript raises and the except block answers generically
      (st, [.toInvoker "An error occurred"])
  | some task =>
      if task.managerId ≠ some managerId then
        (st, [.toInvoker "You cannot complete someone else's task"])
      else
        let tasks' := update_task st.tasks taskId st.now (fun t => { t with status := "completed" })
        let st' := { st with tasks := tasks' }
        match findDriver st.drivers task.driverId with
        | none => (st', [.toInvoker "An error occurred"])
        | some d =>
            (st', [.editManagerMsg ("üì© Task completed by " ++ managerName ++ ":\nType: " ++
                     task.taskType ++ "\nDriver: " ++ d.fullName ++ " (" ++ d.company ++ ")"),
                   .toUser task.driverId ("Your task (" ++ task.taskType ++
                     ") has been completed by " ++ managerName ++ ". Have a safe trip!"),
                   .toInvoker "Task completed!"])

/-- Handler start_send_data: registered drivers enter the 3-step sub-dialog. -/
def start_send_data (st : BotState) (uid : Nat) : BotState × List Reply :=
  match findDriver st.drivers uid with
  | none => (st, [.toInvoker "Please register first!"])
  | some _ =>
      let sess' := { getSession st.sessions uid with dstate := some DState.SEND_TASK_ID }
      ({ st with sessions := setSession st.sessions uid sess' }, [.toInvoker "Enter task number:"])

/-- Handler process_task_id: numeric check, then the task must exist, belong to
the sender and have status in_progress; on success remember the task id. -/
def process_task_id (st : BotState) (uid : Nat) (text : String) : BotState × List Reply :=
  let taskIdStr := pyStrip text
  if ¬ pyIsDigit taskIdStr then
    (st, [.toInvoker "Task number must be a number. Please try again."])
  else
    let taskId := digitsToNat taskIdStr.data
    match findTaskOwned st.tasks taskId uid with
    | none => (st, [.toInvoker "Task not found or not assigned to you."])
    | some _ =>
        let sess := getSession st.sessions uid
        let sess' : Session := { dstate := some .SEND_BOL, data := { sess.data with taskId := some taskId } }
        ({ st with sessions := setSession st.sessions uid sess' }, [.toInvoker "Enter BOL number:"])

/-- Handler process_bol: BOL_PATTERN check, then remember the BOL. -/
def process_bol (st : BotState) (uid : Nat) (text : String) : BotState × List Reply :=
  let bol := pyStrip text
  if ¬ bolMatch bol then
    (st, [.toInvoker "Invalid BOL format (must be 8-12 digits). Please try again."])
  else
    let sess := getSession st.sessions uid
    let sess' : Session := { dstate := some .SEND_TRAILER, data := { sess.data with bol := some bol } }
    ({ st with sessions := setSession st.sessions uid sess' }, [.toInvoker "Enter trailer number:"])

/-- Handler process_trailer: screen the trailer through the content filter, then
write BOL and trailer in one update_task call (refreshing updated_at), clear
the session and forward the data to the assigned manager if any. -/
def process_trailer (st : BotState) (uid : Nat) (text : String) : BotState × List Reply :=
  let sess := getSession st.sessions uid
  match sess.data.taskId, sess.data.bol with
  | some taskId, some bol =>
      let trailer := pyStrip text
      if isSpamField trailer then
        (st, [.toInvoker "Invalid trailer number. Please try again."])
      else
        let tasks' := update_task st.tasks taskId st.now
          (fun t => { t with bolNumber := some bol, trailerNumber := some trailer })
        let st' := { st with tasks := tasks', sessions := clearSession st.sessions uid }
        match findTask tasks' taskId with
        | none => (st', [.toInvoker "Data sent to manager!"])
        | some task =>
            match task.managerId with
            | some m =>
                (st', [.toInvoker "Data sent to manager!",
                       .toUser m ("üì© Task update:\nType: " ++ task.taskType ++
                         "\nBOL: " ++ bol ++ "\nTrailer: " ++ trailer)])
            | none => (st', [.toInvoker "Data sent to manager!"])
  | _, _ =>
      -- a missing task_id or bol key raises KeyError, caught by the except block
      (st, [.toInvoker "An error occurred. Please try again later."])

/-- Insert a task into a descending-by-updated_at list (model of ORDER BY
updated_at DESC; ties keep earlier rows first). -/
def insertByUpdatedDesc (t : Task) : List Task → List Task
  | [] => [t]
  | x :: xs => if t.updatedAt ≤ x.updatedAt then x :: insertByUpdatedDesc t xs else t :: x :: xs

def sortByUpdatedDesc (l : List Task) : List Task :=
  l.foldr insertByUpdatedDesc []

/-- Handler check_task_status: render the five most recently updated own tasks. -/
def check_task_status (st : BotState) (uid : Nat) : BotState × List Reply :=
  let ts := (sortByUpdatedDesc (st.tasks.filter (fun t => t.driverId == uid))).take 5
  if ts.isEmpty then
    (st, [.toInvoker "You have no active tasks."])
  else
    (st, ts.map (fun t =>
      .toInvoker ("Task:\nType: " ++ t.taskType ++ "\nStatus: " ++
        (if t.status = "in_progress" then "‚è≥" else "‚úÖ") ++ " " ++ t.status ++
        "\nBOL: " ++ t.bolNumber.getD "Not provided" ++
        "\nTrailer: " ++ t.trailerNumber.getD "Not provided")))

def welcomeText : String :=
  "Welcome to our team!\nWe work 24/7 üïê\nLet us know if you have any questions or need some help with ELD.\nWe are always glad to help you! üì≤"

/-- Handler cmd_start: greet, refuse to restart a live dialog, otherwise greet a
registered driver or begin registration. -/
def cmd_start (st : BotState) (uid : Nat) : BotState × List Reply :=
  match (getSession st.sessions uid).dstate with
  | some _ =>
      (st, [.toInvoker welcomeText, .toInvoker "Please complete the current action or type /cancel"])
  | none =>
      match findDriver st.drivers uid with
      | some _ => (st, [.toInvoker welcomeText, .toInvoker "Welcome back!"])
      | none =>
          let sess' := { getSession st.sessions uid with dstate := some DState.REG_COMPANY }
          ({ st with sessions := setSession st.sessions uid sess' },
           [.toInvoker welcomeText, .toInvoker "Registration:\n\nEnter company name:"])

/-- Handler cancel_registration. -/
def cancel_registration (st : BotState) (uid : Nat) : BotState × List Reply :=
  match (getSession st.sessions uid).dstate with
  | some _ =>
      ({ st with sessions := clearSession st.sessions uid }, [.toInvoker "Action cancelled"])
  | none => (st, [.toInvoker "No active actions"])

/-- Handler settings: requires a registered driver. -/
def settings (st : BotState) (uid : Nat) : BotState × List Reply :=
  match findDriver st.drivers uid with
  | none => (st, [.toInvoker "Please register first!"])
  | some _ => (st, [.toInvoker "Select an action:"])

/-- Handler edit_data: unconditionally enters the edit dialog (no check that a
driver row exists). -/
def edit_data (st : BotState) (uid : Nat) : BotState × List Reply :=
  let sess' := { getSession st.sessions uid with dstate := some DState.EDIT_COMPANY }
  ({ st with sessions := setSession st.sessions uid sess' }, [.toInvoker "Enter new company name:"])

/-- Handler process_company (registration step 1). -/
def process_company (st : BotState) (uid : Nat) (text : String) : BotState × List Reply :=
  let company := pyStrip text
  if company = "" then
    (st, [.toInvoker "Company name cannot be empty."])
  else
    let sess := getSession st.sessions uid
    let sess' : Session := { dstate := some .REG_FULL_NAME, data := { sess.data with company := some company } }
    ({ st with sessions := setSession st.sessions uid sess' }, [.toInvoker "Enter your full name:"])

/-- Handler process_full_name (registration step 2). -/
def process_full_name (st : BotState) (uid : Nat) (text : String) : BotState × List Reply :=
  let fullName := pyStrip text
  if fullName = "" then
    (st, [.toInvoker "Full name cannot be empty."])
  else
    let sess := getSession st.sessions uid
    let sess' : Session := { dstate := some .REG_PHONE, data := { sess.data with fullName := some fullName } }
    ({ st with sessions := setSession st.sessions uid sess' }, [.toInvoker "Enter phone number (e.g., +71234567890):"])

/-- Handler process_phone (registration step 3): the stripped text must match
PHONE_PATTERN. -/
def process_phone (st : BotState) (uid : Nat) (text : String) : BotState × List Reply :=
  let phone := pyStrip text
  if ¬ phoneMatch phone then
    (st, [.toInvoker "‚ùå Invalid phone format. Example: +71234567890"])
  else
    let sess := getSession st.sessions uid
    let sess' : Session := { dstate := some .REG_TRUCK, data := { sess.data with phone := some phone } }
    ({ st with sessions := setSession st.sessions uid sess' }, [.toInvoker "Enter truck number:"])

/-- Handler process_truck (registration terminal step): INSERT the driver row.
A UNIQUE violation on driver_id or a CHECK violation on phone raises and is
caught, leaving both the tables and the session unchanged. -/
def process_truck (st : BotState) (uid : Nat) (text : String) : BotState × List Reply :=
  let truck := pyStrip text
  if truck = "" then
    (st, [.toInvoker "Truck number cannot be empty."])
  else
    let sess := getSession st.sessions uid
    match sess.data.company, sess.data.fullName, sess.data.phone with
    | some c, some fn, some ph =>
        if (st.drivers.any (fun d => d.driverId == uid)) ∨ phoneMatch ph = false then
          (st, [.toInvoker "An error occurred. Please try again later."])
        else
          ({ st with drivers := st.drivers ++ [(⟨uid, c, fn, ph, truck⟩ : Driver)],
                     sessions := clearSession st.sessions uid },
           [.toInvoker "‚úÖ Registration completed!"])
    | _, _, _ => (st, [.toInvoker "An error occurred. Please try again later."])

/-- Handler process_edit_company. -/
def process_edit_company (st : BotState) (uid : Nat) (text : String) : BotState × List Reply :=
  let company := pyStrip text
  if company = "" then
    (st, [.toInvoker "Company name cannot be empty."])
  else
    let sess := getSession st.sessions uid
    let sess' : Session := { dstate := some .EDIT_FULL_NAME, data := { sess.data with company := some company } }
    ({ st with sessions := setSession st.sessions uid sess' }, [.toInvoker "Enter new full name:"])

/-- Handler process_edit_full_name. -/
def process_edit_full_name (st : BotState) (uid : Nat) (text : String) : BotState × List Reply :=
  let fullName := pyStrip text
  if fullName = "" then
    (st, [.toInvoker "Full name cannot be empty."])
  else
    let sess := getSession st.sessions uid
    let sess' : Session := { dstate := some .EDIT_PHONE, data := { sess.data with fullName := some fullName } }
    ({ st with sessions := setSession st.sessions uid sess' }, [.toInvoker "Enter new phone number:"])

/-- Handler process_edit_phone. -/
def process_edit_phone (st : BotState) (uid : Nat) (text : String) : BotState × List Reply :=
  let phone := pyStrip text
  if ¬ phoneMatch phone then
    (st, [.toInvoker "‚ùå Invalid phone format. Example: +71234567890"])
  else
    let sess := getSession st.sessions uid
    let sess' : Session := { dstate := some .EDIT_TRUCK, data := { sess.data with phone := some phone } }
    ({ st with sessions := setSession st.sessions uid sess' }, [.toInvoker "Enter new truck number:"])

/-- Handler process_edit_truck (edit terminal step): UPDATE the driver row; when
no row matches, the UPDATE affects nothing and still reports success.  A CHECK
violation on an actually updated row raises and is caught. -/
def process_edit_truck (st : BotState) (uid : Nat) (text : String) : BotState × List Reply :=
  let truck := pyStrip text
  if truck = "" then
    (st, [.toInvoker "Truck number cannot be empty."])
  else
    let sess := getSession st.sessions uid
    match sess.data.company, sess.data.fullName, sess.data.phone with
    | some c, some fn, some ph =>
        if (st.drivers.any (fun d => d.driverId == uid)) ∧ phoneMatch ph = false then
          (st, [.toInvoker "An error occurred. Please try again later."])
        else
          ({ st with drivers := updateDriverRow st.drivers uid c fn ph truck,
                     sessions := clearSession st.sessions uid },
           [.toInvoker "Profile updated!"])
    | _, _, _ => (st, [.toInvoker "An error occurred. Please try again later."])

/-- Fallback handler handle_unknown: silently drop denylisted text, otherwise
point at the menu. -/
def handle_unknown (st : BotState) (text : String) : BotState × List Reply :=
  if isSpamField text then (st, [])
  else (st, [.toInvoker "Please use the menu to select an action."])

/-- Dispatch of a text message: the handlers are tried in their registration
order in bot.py (text filters and FSM-state filters interleaved). -/
def stepMsg (st : BotState) (uid : Nat) (text : String) : BotState × List Reply :=
  if text ∈ taskTypeLabels then create_task st uid text
  else if text = "Send Data" then start_send_data st uid
  else if (getSession st.sessions uid).dstate = some .SEND_TASK_ID then process_task_id st uid text
  else if (getSession st.sessions uid).dstate = some .SEND_BOL then process_bol st uid text
  else if (getSession st.sessions uid).dstate = some .SEND_TRAILER then process_trailer st uid text
  else if text = "Check Status" then check_task_status st uid
  else if text = "/start" then cmd_start st uid
  else if text = "/cancel" then cancel_registration st uid
  else if text = "/menu" then (st, [.toInvoker "Main menu"])
  else if text = "‚öôÔ∏è Settings" then settings st uid
  else if text = "Edit Profile" then edit_data st uid
  else if (getSession st.sessions uid).dstate = some .REG_COMPANY then process_company st uid text
  else if (getSession st.sessions uid).dstate = some .REG_FULL_NAME then process_full_name st uid text
  else if (getSession st.sessions uid).dstate = some .REG_PHONE then process_phone st uid text
  else if (getSession st.sessions uid).dstate = some .REG_TRUCK then process_truck st uid text
  else if (getSession st.sessions uid).dstate = some .EDIT_COMPANY then process_edit_company st uid text
  else if (getSession st.sessions uid).dstate = some .EDIT_FULL_NAME then process_edit_full_name st uid text
  else if (getSession st.sessions uid).dstate = some .EDIT_PHONE then process_edit_phone st uid text
  else if (getSession st.sessions uid).dstate = some .EDIT_TRUCK then process_edit_truck st uid text
  else if text = "Back" then (st, [.toInvoker "Main menu"])
  else handle_unknown st text

/-- One inbound event: the clock ticks, then the event is dispatched. -/
def step (st0 : BotState) (ev : Event) : BotState × List Reply :=
  let st := { st0 with now := st0.now + 1 }
  match ev with
  | .msg uid text => stepMsg st uid text
  | .takeCb m name tid => take_task st m name tid
  | .finishCb m name tid => finish_task st m name tid

/-- Run a sequence of events. -/
def run (st : BotState) : List Event → BotState
  | [] => st
  | e :: es => run (step st e).1 es

/-- The empty initial state right after setup_db. -/
def init : BotState :=
  { drivers := [], tasks := [], sessions := fun _ => emptySession, now := 0 }

/-- States the bot can actually be in. -/
def Reachable (st : BotState) : Prop := ∃ evs, run init evs = st


/- ---------------- Concrete event traces used to instantiate the theorems ---------------- -/

/-- Driver 1 registers as Jane Doe of Acme. -/
def evsReg : List Event :=
  [.msg 1 "/start", .msg 1 "Acme", .msg 1 "Jane Doe", .msg 1 "+12345678901", .msg 1 "T-100"]

/-- ... and requests a Check task (task 1, created at clock 6). -/
def evsTask : List Event := evsReg ++ [.msg 1 "Check"]

/-- ... which manager 500 claims. -/
def evsTaken : List Event := evsTask ++ [.takeCb 500 "Mgr" 1]

/-- ... and driver 1 then walks the submit-delivery sub-dialog to the trailer step. -/
def evsSD : List Event := evsTaken ++ [.msg 1 "Send Data", .msg 1 "1", .msg 1 "12345678"]

/-- ... submits, runs the sub-dialog a second time up to a new BOL, the manager
completes the task in between, and the driver still sends the second trailer. -/
def evsSD2 : List Event :=
  evsSD ++ [.msg 1 "TRL-9", .msg 1 "Send Data", .msg 1 "1", .msg 1 "22222222",
            .finishCb 500 "Mgr" 1, .msg 1 "TRL-2"]

/-- Driver 1 registers up to the phone step. -/
def evsPhone : List Event := [.msg 1 "/start", .msg 1 "Acme", .msg 1 "Jane Doe"]

/-- User 7 has no driver row and walks the edit dialog to its last step. -/
def evsEdit7 : List Event :=
  [.msg 7 "Edit Profile", .msg 7 "C2", .msg 7 "N2", .msg 7 "+12345678901"]

/-- Task 1 as of run init evsTask. -/
def taskCreated1 : Task :=
  ⟨1, 1, "Check", "created", none, none, none, 6, 6⟩

/-- Task 1 as of run init evsTaken (note updatedAt still 6). -/
def taskTaken1 : Task :=
  ⟨1, 1, "Check", "in_progress", some 500, none, none, 6, 6⟩

/-- Task 1 right after the first submit-delivery write of evsSD. -/
def taskSD1 : Task :=
  ⟨1, 1, "Check", "in_progress", some 500, some "12345678", some "TRL-9", 6, 11⟩

/- ---------------- Fine-grained model of the claim race (take_task) ----------------
The take_task handler performs two separate database calls: a fetchrow of the
task and, after in-Python checks on the fetched snapshot, an unconditional
UPDATE of status and manager_id.  Under concurrent managers the two calls of
different invocations can interleave.  Conc models exactly this: each
database round trip is one atomic action, the Python checks run on the
snapshot taken by the fetch. -/

namespace Conc

/-- The task columns read by take_task. -/
structure CTask where
  taskType : String
  status : String
  managerId : Option Nat
  bolNumber : Option String
  trailerNumber : Option String
deriving Repr, DecidableEq

/-- Shared database row, per-manager fetched snapshots, and the answers sent. -/
structure CState where
  task : CTask
  fetched : List (Nat × CTask)
  replies : List (Nat × String)
deriving Repr, DecidableEq

/-- The two atomic database actions inside one take_task invocation. -/
inductive CAct
  | doFetch (m : Nat)
  | doCheckUpd (m : Nat)
deriving Repr, DecidableEq

def lookupFetched (l : List (Nat × CTask)) (m : Nat) : Option CTask :=
  (l.find? (fun p => p.1 == m)).map (fun p => p.2)

/-- One atomic action.  doFetch is the fetchrow; doCheckUpd runs the Python
checks on the fetched snapshot and then the unconditional UPDATE (the SQL has
no status guard: UPDATE tasks SET status, manager_id WHERE task_id). -/
def cstep (st : CState) : CAct → CState
  | .doFetch m => { st with fetched := (m, st.task) :: st.fetched }
  | .doCheckUpd m =>
      match lookupFetched st.fetched m with
      | none => st
      | some t =>
          let textFields : List String :=
            [t.taskType, t.status, t.bolNumber.getD "", t.trailerNumber.getD ""]
          if textFields.any TrackBot.isSpamField then
            { st with replies := st.replies ++ [(m, "This task is not available.")] }
          else if t.status ≠ "created" then
            { st with replies := st.replies ++ [(m, "Task is already taken or completed.")] }
          else
            { task := { st.task with status := "in_progress", managerId := some m },
              fetched := st.fetched,
              replies := st.replies ++ [(m, "Task taken!")] }

def crun (st : CState) (acts : List CAct) : CState :=
  acts.foldl cstep st

/-- A fresh created task of type Check, as created by create_task. -/
def cinit : CState :=
  { task := { taskType := "Check", status := "created", managerId := none,
              bolNumber := none, trailerNumber := none },
    fetched := [], replies := [] }

/-- The racing interleaving: both managers fetch before either updates. -/
def raceTrace : List CAct := [.doFetch 1, .doFetch 2, .doCheckUpd 1, .doCheckUpd 2]

end Conc

/- ---------------- The reachable-state invariant ---------------- -/

/-- Properties every stored task row enjoys. -/
structure TaskOk (t : Task) : Prop where
  status_valid : t.status = "created" ∨ t.status = "in_progress" ∨ t.status = "completed"
  created_unmanaged : t.status = "created" → t.managerId = none
  type_label : t.taskType ∈ taskTypeLabels
  bol_valid : ∀ b, t.bolNumber = some b → bolMatch b = true
  trailer_clean : ∀ s, t.trailerNumber = some s → isSpamField s = false
  together : t.bolNumber = none ↔ t.trailerNumber = none

/-- Properties every stored driver row enjoys. -/
structure DriverOk (d : Driver) : Prop where
  company_ok : pyStrip d.company = d.company ∧ d.company ≠ ""
  name_ok : pyStrip d.fullName = d.fullName ∧ d.fullName ≠ ""
  phone_ok : phoneMatch d.phone = true
  truck_ok : pyStrip d.truckNumber = d.truckNumber ∧ d.truckNumber ≠ ""

/-- Properties of the session of user u over the current task table. -/
structure SessOk (tasks : List Task) (u : Nat) (s : Session) : Prop where
  company_ok : ∀ c, s.data.company = some c → pyStrip c = c ∧ c ≠ ""
  name_ok : ∀ c, s.data.fullName = some c → pyStrip c = c ∧ c ≠ ""
  phone_ok : ∀ p, s.data.phone = some p → phoneMatch p = true
  bol_ok : ∀ b, s.data.bol = some b → bolMatch b = true
  task_owned : ∀ tid, s.data.taskId = some tid → ∃ t ∈ tasks, t.taskId = tid ∧ t.driverId = u

/-- The inductive invariant of the bot state. -/
structure Inv (st : BotState) : Prop where
  ids_nodup : (st.tasks.map Task.taskId).Nodup
  task_ok : ∀ t ∈ st.tasks, TaskOk t
  driver_ok : ∀ d ∈ st.drivers, DriverOk d
  sess_ok : ∀ u, SessOk st.tasks u (st.sessions u)

/-- Position of a status in the lifecycle created, in_progress, completed. -/
def statusRank : String → Nat
  | "created" => 0
  | "in_progress" => 1
  | "completed" => 2
  | _ => 3

/-- The re-prompt text of each empty-rejecting dialog step. -/
def emptyReprompt : DState → String
  | .REG_COMPANY => "Company name cannot be empty."
  | .EDIT_COMPANY => "Company name cannot be empty."
  | .REG_FULL_NAME => "Full name cannot be empty."
  | .EDIT_FULL_NAME => "Full name cannot be empty."
  | .REG_TRUCK => "Truck number cannot be empty."
  | .EDIT_TRUCK => "Truck number cannot be empty."
  | _ => ""

/- ---------------- Lemmas about the string helpers ---------------- -/

lemma dropWhile_idem (p : Char → Bool) (l : List Char) :
    List.dropWhile p (List.dropWhile p l) = List.dropWhile p l := by
  induction l with
  | nil => rfl
  | cons c cs ih =>
      cases hp : p c with
      | false => simp [List.dropWhile_cons, hp]
      | true => simpa [List.dropWhile_cons, hp] using ih

lemma dropWhile_suffix (p : Char → Bool) (l : List Char) :
    ∃ u, u ++ List.dropWhile p l = l := by
  induction l with
  | nil => exact ⟨[], rfl⟩
  | cons c cs ih =>
      cases hp : p c with
      | false => exact ⟨[], by simp [List.dropWhile_cons, hp]⟩
      | true =>
          obtain ⟨u, hu⟩ := ih
          exact ⟨c :: u, by simp [List.dropWhile_cons, hp, hu]⟩

lemma dropWhile_self_of_append {p : Char → Bool} {l l' u : List Char}
    (h : List.dropWhile p l = l) (hu : l' ++ u = l) :
    List.dropWhile p l' = l' := by
  cases l' with
  | nil => rfl
  | cons c cs =>
      have hc : p c = false := by
        cases hp : p c with
        | false => rfl
        | true =>
            exfalso
            subst hu
            rw [List.cons_append, List.dropWhile_cons, hp] at h
            simp only [if_true] at h
            obtain ⟨v, hv⟩ := dropWhile_suffix p (cs ++ u)
            have h1 := congrArg List.length h
            have h2 := congrArg List.length hv
            simp only [List.length_cons, List.length_append] at h1 h2
            omega
      simp [List.dropWhile_cons, hc]

lemma stripEnd_append (l : List Char) : ∃ u, stripEnd l ++ u = l := by
  obtain ⟨u, hu⟩ := dropWhile_suffix pyIsSpace l.reverse
  refine ⟨u.reverse, ?_⟩
  have h := congrArg List.reverse hu
  simpa [stripEnd, List.reverse_append] using h

lemma stripEnd_idem (l : List Char) : stripEnd (stripEnd l) = stripEnd l := by
  simp [stripEnd, List.reverse_reverse, dropWhile_idem]

lemma pyStripChars_idem (l : List Char) : pyStripChars (pyStripChars l) = pyStripChars l := by
  have ha : List.dropWhile pyIsSpace (List.dropWhile pyIsSpace l) = List.dropWhile pyIsSpace l :=
    dropWhile_idem _ _
  obtain ⟨u, hu⟩ := stripEnd_append (List.dropWhile pyIsSpace l)
  have hb : List.dropWhile pyIsSpace (stripEnd (List.dropWhile pyIsSpace l)) =
      stripEnd (List.dropWhile pyIsSpace l) :=
    dropWhile_self_of_append ha hu
  calc pyStripChars (pyStripChars l)
      = stripEnd (List.dropWhile pyIsSpace (stripEnd (List.dropWhile pyIsSpace l))) := rfl
    _ = stripEnd (stripEnd (List.dropWhile pyIsSpace l)) := by rw [hb]
    _ = stripEnd (List.dropWhile pyIsSpace l) := stripEnd_idem _
    _ = pyStripChars l := rfl

lemma pyStrip_idem (s : String) : pyStrip (pyStrip s) = pyStrip s := by
  show String.mk (pyStripChars (pyStripChars s.data)) = String.mk (pyStripChars s.data)
  rw [pyStripChars_idem]

lemma ne_of_pyStrip_empty {t lit : String} (h : pyStrip t = "") (hl : pyStrip lit ≠ "") :
    t ≠ lit := fun he => hl (he ▸ h)

lemma startsWithL_mem : ∀ (p s : List Char), startsWithL p s = true → ∀ c ∈ p, c ∈ s
  | [], _, _, c, hc => absurd hc (List.not_mem_nil c)
  | p₀ :: ps, [], h, _, _ => by simp [startsWithL] at h
  | p₀ :: ps, c₀ :: cs, h, c, hc => by
      simp only [startsWithL, Bool.and_eq_true, beq_iff_eq] at h
      rcases List.mem_cons.mp hc with rfl | hmem
      · rw [h.1]; exact List.mem_cons_self c₀ cs
      · exact List.mem_cons_of_mem _ (startsWithL_mem ps cs h.2 c hmem)

lemma containsSubL_mem : ∀ (p s : List Char), containsSubL p s = true → ∀ c ∈ p, c ∈ s
  | p, [], h, c, hc => by
      simp only [containsSubL, List.isEmpty_iff] at h
      subst h; exact absurd hc (List.not_mem_nil c)
  | p, c₀ :: cs, h, c, hc => by
      rw [containsSubL, Bool.or_eq_true] at h
      rcases h with h | h
      · exact startsWithL_mem p (c₀ :: cs) h c hc
      · exact List.mem_cons_of_mem _ (containsSubL_mem p cs h c hc)

lemma asciiLower_of_digit {c : Char} (h : isAsciiDigit c = true) : asciiLower c = c := by
  simp only [isAsciiDigit, Bool.and_eq_true, decide_eq_true_eq] at h
  rw [asciiLower, if_neg]
  omega

lemma toNat_le_of_digit {c : Char} (h : isAsciiDigit c = true) : c.toNat ≤ 57 := by
  simp only [isAsciiDigit, Bool.and_eq_true, decide_eq_true_eq] at h
  exact h.2

lemma not_contains_of_digits {b : String} (hb : b.data.all isAsciiDigit = true)
    (tok : String) (c : Char) (hc : c ∈ tok.data) (hgt : 57 < c.toNat) :
    containsSubL tok.data (pyLower b).data = false := by
  by_contra hcon
  have hcon' : containsSubL tok.data (pyLower b).data = true := by
    revert hcon; cases containsSubL tok.data (pyLower b).data <;> simp
  have hmem : c ∈ List.map asciiLower b.data := containsSubL_mem _ _ hcon' c hc
  rcases List.mem_map.mp hmem with ⟨d, hd, hdc⟩
  have hdig : isAsciiDigit d = true := by
    rw [List.all_eq_true] at hb; exact hb d hd
  rw [asciiLower_of_digit hdig] at hdc
  subst hdc
  exact absurd (toNat_le_of_digit hdig) (by omega)

lemma bolMatch_not_spam {b : String} (h : bolMatch b = true) : isSpamField b = false := by
  have hb : b.data.all isAsciiDigit = true := by
    simp only [bolMatch, Bool.and_eq_true] at h
    exact h.1.1
  rw [isSpamField, List.any_eq_false]
  intro x hx
  simp only [spamTokens, List.mem_cons, List.not_mem_nil, or_false] at hx
  rcases hx with rfl | rfl | rfl | rfl | rfl
  · simp [not_contains_of_digits hb "vpn" 'v' (by decide) (by decide)]
  · simp [not_contains_of_digits hb "http" 'h' (by decide) (by decide)]
  · simp [not_contains_of_digits hb "arturshi" 'a' (by decide) (by decide)]
  · simp [not_contains_of_digits hb "üîí" 'ü' (by decide) (by decide)]
  · simp [not_contains_of_digits hb "üî•" 'ü' (by decide) (by decide)]

lemma label_not_spam : ∀ s ∈ taskTypeLabels, isSpamField s = false := by decide

lemma status_not_spam :
    isSpamField "created" = false ∧ isSpamField "in_progress" = false ∧
    isSpamField "completed" = false ∧ isSpamField "" = false := by decide

/- ---------------- Lemmas about the store operations ---------------- -/

lemma find?_append_of_some {α : Type} {p : α → Bool} {l l' : List α} {a : α}
    (h : l.find? p = some a) : (l ++ l').find? p = some a := by
  induction l with
  | nil => simp [List.find?] at h
  | cons x xs ih =>
      cases hp : p x with
      | true =>
          rw [List.find?_cons, hp] at h
          simp only [cond_true] at h
          rw [List.cons_append, List.find?_cons, hp]
          simpa using h
      | false =>
          rw [List.find?_cons, hp] at h
          simp only [cond_false] at h
          rw [List.cons_append, List.find?_cons, hp]
          simpa using ih h

lemma find?_append_of_none {α : Type} {p : α → Bool} {l l' : List α}
    (h : l.find? p = none) : (l ++ l').find? p = l'.find? p := by
  induction l with
  | nil => rfl
  | cons x xs ih =>
      cases hp : p x with
      | true =>
          rw [List.find?_cons, hp] at h
          simp at h
      | false =>
          rw [List.find?_cons, hp] at h
          simp only [cond_false] at h
          rw [List.cons_append, List.find?_cons, hp]
          simpa using ih h

lemma find?_map_pres {α : Type} {p : α → Bool} {f : α → α} (hf : ∀ a, p (f a) = p a) :
    ∀ (l : List α), (l.map f).find? p = (l.find? p).map f
  | [] => rfl
  | x :: xs => by
      cases hp : p x with
      | true =>
          rw [List.map_cons, List.find?_cons, hf x, hp, List.find?_cons, hp]
          rfl
      | false =>
          rw [List.map_cons, List.find?_cons, hf x, hp, List.find?_cons, hp]
          simpa using find?_map_pres hf xs

lemma if_update_taskId {g : Task → Task} (hg : ∀ t, (g t).taskId = t.taskId)
    (t : Task) (tid : Nat) :
    (if t.taskId = tid then g t else t).taskId = t.taskId := by
  split
  · exact hg t
  · rfl

lemma findTask_mem {l : List Task} {tid : Nat} {t : Task} (h : findTask l tid = some t) :
    t ∈ l ∧ t.taskId = tid := by
  refine ⟨List.mem_of_find?_eq_some h, ?_⟩
  have := List.find?_some h
  simpa using this

lemma findTask_append_some {l l' : List Task} {tid : Nat} {t : Task}
    (h : findTask l tid = some t) : findTask (l ++ l') tid = some t :=
  find?_append_of_some h

lemma findTask_append_none {l l' : List Task} {tid : Nat}
    (h : findTask l tid = none) : findTask (l ++ l') tid = findTask l' tid :=
  find?_append_of_none h

lemma findTask_updateTasks {l : List Task} {tid tid' : Nat} {g : Task → Task}
    (hg : ∀ t, (g t).taskId = t.taskId) :
    findTask (updateTasks l tid g) tid' =
      (findTask l tid').map (fun t => if t.taskId = tid then g t else t) := by
  unfold findTask updateTasks
  apply find?_map_pres
  intro a
  rw [if_update_taskId hg a tid]

lemma taskId_lt_nextTaskId : ∀ (l : List Task), ∀ t ∈ l, t.taskId < nextTaskId l := by
  intro l
  induction l with
  | nil => intro t ht; exact absurd ht (List.not_mem_nil t)
  | cons x xs ih =>
      intro t ht
      rcases List.mem_cons.mp ht with rfl | hmem
      · simp only [nextTaskId, List.foldr]
        omega
      · have h1 := ih t hmem
        simp only [nextTaskId, List.foldr] at h1 ⊢
        omega

lemma taskIds_updateTasks {l : List Task} {tid : Nat} {g : Task → Task}
    (hg : ∀ t, (g t).taskId = t.taskId) :
    (updateTasks l tid g).map Task.taskId = l.map Task.taskId := by
  unfold updateTasks
  rw [List.map_map]
  apply List.map_congr_left
  intro a _
  exact if_update_taskId hg a tid

lemma nodup_updateTasks (l : List Task) (tid : Nat) (g : Task → Task)
    (hg : ∀ t, (g t).taskId = t.taskId) (h : (l.map Task.taskId).Nodup) :
    ((updateTasks l tid g).map Task.taskId).Nodup := by
  rw [taskIds_updateTasks hg]
  exact h

lemma mem_updateTasks {l : List Task} {tid : Nat} {g : Task → Task} {t : Task}
    (ht : t ∈ l) : (if t.taskId = tid then g t else t) ∈ updateTasks l tid g :=
  List.mem_map_of_mem _ ht

lemma findTask_of_mem_nodup {l : List Task} (hnd : (l.map Task.taskId).Nodup)
    {t : Task} (ht : t ∈ l) {tid : Nat} (hid : t.taskId = tid) :
    findTask l tid = some t := by
  induction l with
  | nil => exact absurd ht (List.not_mem_nil t)
  | cons x xs ih =>
      rw [List.map_cons, List.nodup_cons] at hnd
      rcases List.mem_cons.mp ht with rfl | hmem
      · unfold findTask
        rw [List.find?_cons]
        simp [hid]
      · have hx : (x.taskId == tid) = false := by
          simp only [beq_eq_false_iff_ne, ne_eq]
          intro he
          exact hnd.1 (by
            rw [he, ← hid]
            exact List.mem_map_of_mem Task.taskId hmem)
        unfold findTask
        rw [List.find?_cons, hx]
        exact ih hnd.2 hmem

lemma findDriver_append_some {l l' : List Driver} {uid : Nat} {d : Driver}
    (h : findDriver l uid = some d) : findDriver (l ++ l') uid = some d :=
  find?_append_of_some h

lemma findDriver_append_none {l l' : List Driver} {uid : Nat}
    (h : findDriver l uid = none) : findDriver (l ++ l') uid = findDriver l' uid :=
  find?_append_of_none h

lemma updateDriverRow_of_absent {l : List Driver} {uid : Nat}
    (h : findDriver l uid = none) (c fn ph tr : String) :
    updateDriverRow l uid c fn ph tr = l := by
  have hall := List.find?_eq_none.mp h
  unfold updateDriverRow
  have : ∀ d ∈ l, (if d.driverId = uid then
      { d with company := c, fullName := fn, phone := ph, truckNumber := tr } else d) = d := by
    intro d hd
    rw [if_neg]
    intro he
    exact hall d hd (by simp [he])
  calc l.map _ = l.map id := List.map_congr_left this
    _ = l := List.map_id l

lemma findDriver_none_iff_any {l : List Driver} {uid : Nat} :
    findDriver l uid = none ↔ l.any (fun d => d.driverId == uid) = false := by
  rw [findDriver, List.find?_eq_none, List.any_eq_false]

lemma taskOk_fields_clean {t : Task} (h : TaskOk t) :
    ([t.taskType, t.status, t.bolNumber.getD "", t.trailerNumber.getD ""].any isSpamField)
      = false := by
  have h1 : isSpamField t.taskType = false := label_not_spam _ h.type_label
  have h2 : isSpamField t.status = false := by
    rcases h.status_valid with hs | hs | hs
    · rw [hs]; exact status_not_spam.1
    · rw [hs]; exact status_not_spam.2.1
    · rw [hs]; exact status_not_spam.2.2.1
  have h3 : isSpamField (t.bolNumber.getD "") = false := by
    cases hb : t.bolNumber with
    | none => exact status_not_spam.2.2.2
    | some b => exact bolMatch_not_spam (h.bol_valid b hb)
  have h4 : isSpamField (t.trailerNumber.getD "") = false := by
    cases hb : t.trailerNumber with
    | none => exact status_not_spam.2.2.2
    | some s => exact h.trailer_clean s hb
  simp [h1, h2, h3, h4]

lemma sessOk_empty (tasks : List Task) (u : Nat) : SessOk tasks u emptySession := by
  constructor <;> intro _ h <;> simp [emptySession, emptySessionData] at h

lemma sessOk_append {tasks : List Task} {u : Nat} {s : Session} (h : SessOk tasks u s)
    (new : Task) : SessOk (tasks ++ [new]) u s := by
  refine ⟨h.company_ok, h.name_ok, h.phone_ok, h.bol_ok, ?_⟩
  intro tid htid
  obtain ⟨t, ht, h1, h2⟩ := h.task_owned tid htid
  exact ⟨t, List.mem_append_left _ ht, h1, h2⟩

lemma sessOk_updateTasks {tasks : List Task} {u : Nat} {s : Session} (h : SessOk tasks u s)
    {tid : Nat} {g : Task → Task}
    (hg : ∀ t, (g t).taskId = t.taskId ∧ (g t).driverId = t.driverId) :
    SessOk (updateTasks tasks tid g) u s := by
  refine ⟨h.company_ok, h.name_ok, h.phone_ok, h.bol_ok, ?_⟩
  intro tid' htid
  obtain ⟨t, ht, h1, h2⟩ := h.task_owned tid' htid
  refine ⟨if t.taskId = tid then g t else t, mem_updateTasks ht, ?_, ?_⟩
  · split
    · rw [(hg t).1, h1]
    · exact h1
  · split
    · rw [(hg t).2, h2]
    · exact h2

lemma inv_tick {st : BotState} (h : Inv st) (n : Nat) : Inv { st with now := n } :=
  ⟨h.ids_nodup, h.task_ok, h.driver_ok, h.sess_ok⟩

lemma sessOk_set_state {tasks : List Task} {u : Nat} (s : Session) (h : SessOk tasks u s)
    (d : Option DState) : SessOk tasks u ⟨d, s.data⟩ :=
  ⟨h.company_ok, h.name_ok, h.phone_ok, h.bol_ok, h.task_owned⟩

lemma inv_sessions_set {st : BotState} (h : Inv st) {u : Nat} {s' : Session}
    (hs : SessOk st.tasks u s') : Inv { st with sessions := setSession st.sessions u s' } := by
  refine ⟨h.ids_nodup, h.task_ok, h.driver_ok, ?_⟩
  intro u'
  show SessOk st.tasks u' (if u' = u then s' else st.sessions u')
  by_cases he : u' = u
  · rw [if_pos he]; subst he; exact hs
  · rw [if_neg he]; exact h.sess_ok u'

lemma inv_create_task {st : BotState} (h : Inv st) {uid : Nat} {text : String}
    (hlabel : text ∈ taskTypeLabels) : Inv (create_task st uid text).1 := by
  unfold create_task
  split
  · exact h
  · refine ⟨?_, ?_, h.driver_ok, ?_⟩
    · show ((st.tasks ++ [_]).map Task.taskId).Nodup
      rw [List.map_append, List.nodup_append]
      refine ⟨h.ids_nodup, List.nodup_singleton _, ?_⟩
      intro a ha hmem
      rcases List.mem_map.mp ha with ⟨t0, ht0, rfl⟩
      simp only [List.map_cons, List.map_nil, List.mem_singleton] at hmem
      have := taskId_lt_nextTaskId st.tasks t0 ht0
      rw [hmem] at this
      omega
    · intro t' ht'
      rcases List.mem_append.mp ht' with hold | hnew
      · exact h.task_ok t' hold
      · rw [List.mem_singleton] at hnew
        subst hnew
        exact ⟨Or.inl rfl, fun _ => rfl, hlabel,
               fun b hb => by simp at hb, fun s hs => by simp at hs, Iff.rfl⟩
    · intro u
      exact sessOk_append (h.sess_ok u) _

lemma inv_take_success {st : BotState} (h : Inv st) (m tid : Nat) :
    Inv { st with tasks := updateTasks st.tasks tid (fun t => { t with status := "in_progress", managerId := some m }) } := by
  refine ⟨?_, ?_, h.driver_ok, ?_⟩
  · exact nodup_updateTasks _ _ _ (fun t => rfl) h.ids_nodup
  · intro t' ht'
    rcases List.mem_map.mp ht' with ⟨t0, ht0, rfl⟩
    have h0 := h.task_ok t0 ht0
    by_cases hc : t0.taskId = tid
    · rw [if_pos hc]
      exact ⟨Or.inr (Or.inl rfl),
             fun hh => absurd hh (show ("in_progress" : String) ≠ "created" by decide),
             h0.type_label, h0.bol_valid, h0.trailer_clean, h0.together⟩
    · rw [if_neg hc]; exact h0
  · intro u
    exact sessOk_updateTasks (h.sess_ok u) (fun t => ⟨rfl, rfl⟩)

lemma inv_take_task {st : BotState} (h : Inv st) (m : Nat) (name : String) (tid : Nat) :
    Inv (take_task st m name tid).1 := by
  unfold take_task
  dsimp only
  split
  · exact h
  · repeat' split
    all_goals first
      | exact h
      | exact inv_take_success h m tid

lemma inv_finish_success {st : BotState} (h : Inv st) (tid : Nat) :
    Inv { st with tasks := update_task st.tasks tid st.now (fun t => { t with status := "completed" }) } := by
  refine ⟨?_, ?_, h.driver_ok, ?_⟩
  · exact nodup_updateTasks _ _ _ (fun t => rfl) h.ids_nodup
  · intro t' ht'
    rcases List.mem_map.mp ht' with ⟨t0, ht0, rfl⟩
    have h0 := h.task_ok t0 ht0
    by_cases hc : t0.taskId = tid
    · rw [if_pos hc]
      exact ⟨Or.inr (Or.inr rfl),
             fun hh => absurd hh (show ("completed" : String) ≠ "created" by decide),
             h0.type_label, h0.bol_valid, h0.trailer_clean, h0.together⟩
    · rw [if_neg hc]; exact h0
  · intro u
    exact sessOk_updateTasks (h.sess_ok u) (fun t => ⟨rfl, rfl⟩)

lemma inv_finish_task {st : BotState} (h : Inv st) (m : Nat) (name : String) (tid : Nat) :
    Inv (finish_task st m name tid).1 := by
  unfold finish_task
  dsimp only
  split
  · exact h
  · repeat' split
    all_goals first
      | exact h
      | exact inv_finish_success h tid

lemma inv_start_send_data {st : BotState} (h : Inv st) (uid : Nat) :
    Inv (start_send_data st uid).1 := by
  unfold start_send_data
  dsimp only
  split
  · exact h
  · exact inv_sessions_set h (sessOk_set_state (st.sessions uid) (h.sess_ok uid) _)

lemma inv_process_task_id {st : BotState} (h : Inv st) (uid : Nat) (text : String) :
    Inv (process_task_id st uid text).1 := by
  unfold process_task_id
  dsimp only
  split
  · exact h
  · split
    · exact h
    · rename_i t ht
      apply inv_sessions_set h
      have hOld := h.sess_ok uid
      refine ⟨hOld.company_ok, hOld.name_ok, hOld.phone_ok, hOld.bol_ok, ?_⟩
      intro tid' htid'
      have he : digitsToNat (pyStrip text).data = tid' := by simpa using htid'
      subst he
      have hmem := List.mem_of_find?_eq_some ht
      have hp := List.find?_some ht
      simp only [Bool.and_eq_true, beq_iff_eq] at hp
      exact ⟨t, hmem, hp.1.1, hp.1.2⟩

lemma inv_process_bol {st : BotState} (h : Inv st) (uid : Nat) (text : String) :
    Inv (process_bol st uid text).1 := by
  unfold process_bol
  dsimp only
  split
  · exact h
  · rename_i hbol
    apply inv_sessions_set h
    have hOld := h.sess_ok uid
    refine ⟨hOld.company_ok, hOld.name_ok, hOld.phone_ok, ?_, hOld.task_owned⟩
    intro b hb
    have he : pyStrip text = b := by simpa using hb
    subst he
    exact of_not_not hbol

lemma inv_process_trailer {st : BotState} (h : Inv st) (uid : Nat) (text : String) :
    Inv (process_trailer st uid text).1 := by
  unfold process_trailer
  dsimp only
  split
  · rename_i taskId bol hTid hBol
    split
    · exact h
    · rename_i hspam
      have hInv' : Inv { st with
          tasks := update_task st.tasks taskId st.now (fun t => { t with bolNumber := some bol, trailerNumber := some (pyStrip text) }),
          sessions := clearSession st.sessions uid } := by
        refine ⟨?_, ?_, h.driver_ok, ?_⟩
        · exact nodup_updateTasks _ _ _ (fun t => rfl) h.ids_nodup
        · intro t' ht'
          rcases List.mem_map.mp ht' with ⟨t0, ht0, rfl⟩
          have h0 := h.task_ok t0 ht0
          by_cases hc : t0.taskId = taskId
          · rw [if_pos hc]
            refine ⟨h0.status_valid, h0.created_unmanaged, h0.type_label, ?_, ?_, ?_⟩
            · intro b hb
              have he : bol = b := by simpa using hb
              subst he
              exact (h.sess_ok uid).bol_ok bol hBol
            · intro s0 hs0
              have he : pyStrip text = s0 := by simpa using hs0
              subst he
              cases hsp : isSpamField (pyStrip text) with
              | false => rfl
              | true => exact absurd hsp hspam
            · simp
          · rw [if_neg hc]; exact h0
        · intro u'
          show SessOk _ u' (if u' = uid then emptySession else st.sessions u')
          by_cases he : u' = uid
          · rw [if_pos he]; exact sessOk_empty _ _
          · rw [if_neg he]
            exact sessOk_updateTasks (h.sess_ok u') (fun t => ⟨rfl, rfl⟩)
      repeat' split
      all_goals exact hInv'
  all_goals exact h

lemma inv_cmd_start {st : BotState} (h : Inv st) (uid : Nat) : Inv (cmd_start st uid).1 := by
  unfold cmd_start
  dsimp only
  split
  · exact h
  · split
    · exact h
    · exact inv_sessions_set h (sessOk_set_state (st.sessions uid) (h.sess_ok uid) _)

lemma inv_cancel {st : BotState} (h : Inv st) (uid : Nat) :
    Inv (cancel_registration st uid).1 := by
  unfold cancel_registration
  split
  · exact inv_sessions_set h (sessOk_empty _ _)
  · exact h

lemma inv_settings {st : BotState} (h : Inv st) (uid : Nat) : Inv (settings st uid).1 := by
  unfold settings
  split
  · exact h
  · exact h

lemma inv_edit_data {st : BotState} (h : Inv st) (uid : Nat) : Inv (edit_data st uid).1 :=
  inv_sessions_set h (sessOk_set_state (st.sessions uid) (h.sess_ok uid) _)

lemma inv_check_status {st : BotState} (h : Inv st) (uid : Nat) :
    Inv (check_task_status st uid).1 := by
  unfold check_task_status
  dsimp only
  split
  · exact h
  · exact h

lemma inv_handle_unknown {st : BotState} (h : Inv st) (text : String) :
    Inv (handle_unknown st text).1 := by
  unfold handle_unknown
  split
  · exact h
  · exact h

lemma inv_process_company {st : BotState} (h : Inv st) (uid : Nat) (text : String) :
    Inv (process_company st uid text).1 := by
  unfold process_company
  dsimp only
  split
  · exact h
  · rename_i hne
    apply inv_sessions_set h
    have hOld := h.sess_ok uid
    refine ⟨?_, hOld.name_ok, hOld.phone_ok, hOld.bol_ok, hOld.task_owned⟩
    intro c hc
    have he : pyStrip text = c := by simpa using hc
    subst he
    exact ⟨pyStrip_idem text, hne⟩

lemma inv_process_full_name {st : BotState} (h : Inv st) (uid : Nat) (text : String) :
    Inv (process_full_name st uid text).1 := by
  unfold process_full_name
  dsimp only
  split
  · exact h
  · rename_i hne
    apply inv_sessions_set h
    have hOld := h.sess_ok uid
    refine ⟨hOld.company_ok, ?_, hOld.phone_ok, hOld.bol_ok, hOld.task_owned⟩
    intro c hc
    have he : pyStrip text = c := by simpa using hc
    subst he
    exact ⟨pyStrip_idem text, hne⟩

lemma inv_process_phone {st : BotState} (h : Inv st) (uid : Nat) (text : String) :
    Inv (process_phone st uid text).1 := by
  unfold process_phone
  dsimp only
  split
  · exact h
  · rename_i hph
    apply inv_sessions_set h
    have hOld := h.sess_ok uid
    refine ⟨hOld.company_ok, hOld.name_ok, ?_, hOld.bol_ok, hOld.task_owned⟩
    intro p hp
    have he : pyStrip text = p := by simpa using hp
    subst he
    exact of_not_not hph

lemma inv_process_edit_company {st : BotState} (h : Inv st) (uid : Nat) (text : String) :
    Inv (process_edit_company st uid text).1 := by
  unfold process_edit_company
  dsimp only
  split
  · exact h
  · rename_i hne
    apply inv_sessions_set h
    have hOld := h.sess_ok uid
    refine ⟨?_, hOld.name_ok, hOld.phone_ok, hOld.bol_ok, hOld.task_owned⟩
    intro c hc
    have he : pyStrip text = c := by simpa using hc
    subst he
    exact ⟨pyStrip_idem text, hne⟩

lemma inv_process_edit_full_name {st : BotState} (h : Inv st) (uid : Nat) (text : String) :
    Inv (process_edit_full_name st uid text).1 := by
  unfold process_edit_full_name
  dsimp only
  split
  · exact h
  · rename_i hne
    apply inv_sessions_set h
    have hOld := h.sess_ok uid
    refine ⟨hOld.company_ok, ?_, hOld.phone_ok, hOld.bol_ok, hOld.task_owned⟩
    intro c hc
    have he : pyStrip text = c := by simpa using hc
    subst he
    exact ⟨pyStrip_idem text, hne⟩

lemma inv_process_edit_phone {st : BotState} (h : Inv st) (uid : Nat) (text : String) :
    Inv (process_edit_phone st uid text).1 := by
  unfold process_edit_phone
  dsimp only
  split
  · exact h
  · rename_i hph
    apply inv_sessions_set h
    have hOld := h.sess_ok uid
    refine ⟨hOld.company_ok, hOld.name_ok, ?_, hOld.bol_ok, hOld.task_owned⟩
    intro p hp
    have he : pyStrip text = p := by simpa using hp
    subst he
    exact of_not_not hph

lemma inv_process_truck {st : BotState} (h : Inv st) (uid : Nat) (text : String) :
    Inv (process_truck st uid text).1 := by
  unfold process_truck
  dsimp only
  split
  · exact h
  · rename_i hne
    split
    · rename_i c fn ph hc hfn hph
      split
      · exact h
      · refine ⟨h.ids_nodup, h.task_ok, ?_, ?_⟩
        · intro d hd
          rcases List.mem_append.mp hd with hold | hnew
          · exact h.driver_ok d hold
          · rw [List.mem_singleton] at hnew
            subst hnew
            have hOld := h.sess_ok uid
            exact ⟨hOld.company_ok c hc, hOld.name_ok fn hfn, hOld.phone_ok ph hph,
                   pyStrip_idem text, hne⟩
        · intro u'
          show SessOk _ u' (if u' = uid then emptySession else st.sessions u')
          by_cases he : u' = uid
          · rw [if_pos he]; exact sessOk_empty _ _
          · rw [if_neg he]; exact h.sess_ok u'
    · exact h

lemma inv_process_edit_truck {st : BotState} (h : Inv st) (uid : Nat) (text : String) :
    Inv (process_edit_truck st uid text).1 := by
  unfold process_edit_truck
  dsimp only
  split
  · exact h
  · rename_i hne
    split
    · rename_i c fn ph hc hfn hph
      split
      · exact h
      · refine ⟨h.ids_nodup, h.task_ok, ?_, ?_⟩
        · intro d' hd'
          rcases List.mem_map.mp hd' with ⟨d0, hd0, rfl⟩
          by_cases hdc : d0.driverId = uid
          · rw [if_pos hdc]
            have hOld := h.sess_ok uid
            exact ⟨hOld.company_ok c hc, hOld.name_ok fn hfn, hOld.phone_ok ph hph,
                   pyStrip_idem text, hne⟩
          · rw [if_neg hdc]; exact h.driver_ok d0 hd0
        · intro u'
          show SessOk _ u' (if u' = uid then emptySession else st.sessions u')
          by_cases he : u' = uid
          · rw [if_pos he]; exact sessOk_empty _ _
          · rw [if_neg he]; exact h.sess_ok u'
    · exact h

lemma inv_stepMsg {st : BotState} (h : Inv st) (uid : Nat) (text : String) :
    Inv (stepMsg st uid text).1 := by
  unfold stepMsg
  by_cases h1 : text ∈ taskTypeLabels
  · rw [if_pos h1]; exact inv_create_task h h1
  rw [if_neg h1]
  by_cases h2 : text = "Send Data"
  · rw [if_pos h2]; exact inv_start_send_data h uid
  rw [if_neg h2]
  by_cases h3 : (getSession st.sessions uid).dstate = some DState.SEND_TASK_ID
  · rw [if_pos h3]; exact inv_process_task_id h uid text
  rw [if_neg h3]
  by_cases h4 : (getSession st.sessions uid).dstate = some DState.SEND_BOL
  · rw [if_pos h4]; exact inv_process_bol h uid text
  rw [if_neg h4]
  by_cases h5 : (getSession st.sessions uid).dstate = some DState.SEND_TRAILER
  · rw [if_pos h5]; exact inv_process_trailer h uid text
  rw [if_neg h5]
  by_cases h6 : text = "Check Status"
  · rw [if_pos h6]; exact inv_check_status h uid
  rw [if_neg h6]
  by_cases h7 : text = "/start"
  · rw [if_pos h7]; exact inv_cmd_start h uid
  rw [if_neg h7]
  by_cases h8 : text = "/cancel"
  · rw [if_pos h8]; exact inv_cancel h uid
  rw [if_neg h8]
  by_cases h9 : text = "/menu"
  · rw [if_pos h9]; exact h
  rw [if_neg h9]
  by_cases h10 : text = "‚öôÔ∏è Settings"
  · rw [if_pos h10]; exact inv_settings h uid
  rw [if_neg h10]
  by_cases h11 : text = "Edit Profile"
  · rw [if_pos h11]; exact inv_edit_data h uid
  rw [if_neg h11]
  by_cases h12 : (getSession st.sessions uid).dstate = some DState.REG_COMPANY
  · rw [if_pos h12]; exact inv_process_company h uid text
  rw [if_neg h12]
  by_cases h13 : (getSession st.sessions uid).dstate = some DState.REG_FULL_NAME
  · rw [if_pos h13]; exact inv_process_full_name h uid text
  rw [if_neg h13]
  by_cases h14 : (getSession st.sessions uid).dstate = some DState.REG_PHONE
  · rw [if_pos h14]; exact inv_process_phone h uid text
  rw [if_neg h14]
  by_cases h15 : (getSession st.sessions uid).dstate = some DState.REG_TRUCK
  · rw [if_pos h15]; exact inv_process_truck h uid text
  rw [if_neg h15]
  by_cases h16 : (getSession st.sessions uid).dstate = some DState.EDIT_COMPANY
  · rw [if_pos h16]; exact inv_process_edit_company h uid text
  rw [if_neg h16]
  by_cases h17 : (getSession st.sessions uid).dstate = some DState.EDIT_FULL_NAME
  · rw [if_pos h17]; exact inv_process_edit_full_name h uid text
  rw [if_neg h17]
  by_cases h18 : (getSession st.sessions uid).dstate = some DState.EDIT_PHONE
  · rw [if_pos h18]; exact inv_process_edit_phone h uid text
  rw [if_neg h18]
  by_cases h19 : (getSession st.sessions uid).dstate = some DState.EDIT_TRUCK
  · rw [if_pos h19]; exact inv_process_edit_truck h uid text
  rw [if_neg h19]
  by_cases h20 : text = "Back"
  · rw [if_pos h20]; exact h
  rw [if_neg h20]
  exact inv_handle_unknown h text

lemma inv_step {st : BotState} (h : Inv st) (ev : Event) : Inv (step st ev).1 := by
  cases ev with
  | msg uid text => exact inv_stepMsg (inv_tick h _) uid text
  | takeCb m name tid => exact inv_take_task (inv_tick h _) m name tid
  | finishCb m name tid => exact inv_finish_task (inv_tick h _) m name tid

lemma inv_run : ∀ (evs : List Event) (st : BotState), Inv st → Inv (run st evs)
  | [], _, h => h
  | e :: es, _, h => inv_run es _ (inv_step h e)

lemma inv_init : Inv init := by
  refine ⟨?_, ?_, ?_, ?_⟩
  · simp [init]
  · intro t ht; simp [init] at ht
  · intro d hd; simp [init] at hd
  · intro u; exact sessOk_empty _ _

lemma reachable_inv {st : BotState} (h : Reachable st) : Inv st := by
  obtain ⟨evs, rfl⟩ := h
  exact inv_run evs init inv_init

lemma start_send_data_tasks (st : BotState) (uid : Nat) :
    (start_send_data st uid).1.tasks = st.tasks := by
  unfold start_send_data
  try dsimp only
  repeat' split
  all_goals rfl

lemma process_task_id_tasks (st : BotState) (uid : Nat) (text : String) :
    (process_task_id st uid text).1.tasks = st.tasks := by
  unfold process_task_id
  try dsimp only
  repeat' split
  all_goals rfl

lemma process_bol_tasks (st : BotState) (uid : Nat) (text : String) :
    (process_bol st uid text).1.tasks = st.tasks := by
  unfold process_bol
  try dsimp only
  repeat' split
  all_goals rfl

lemma check_task_status_tasks (st : BotState) (uid : Nat) :
    (check_task_status st uid).1.tasks = st.tasks := by
  unfold check_task_status
  try dsimp only
  repeat' split
  all_goals rfl

lemma cmd_start_tasks (st : BotState) (uid : Nat) :
    (cmd_start st uid).1.tasks = st.tasks := by
  unfold cmd_start
  try dsimp only
  repeat' split
  all_goals rfl

lemma cancel_registration_tasks (st : BotState) (uid : Nat) :
    (cancel_registration st uid).1.tasks = st.tasks := by
  unfold cancel_registration
  try dsimp only
  repeat' split
  all_goals rfl

lemma settings_tasks (st : BotState) (uid : Nat) :
    (settings st uid).1.tasks = st.tasks := by
  unfold settings
  try dsimp only
  repeat' split
  all_goals rfl

lemma edit_data_tasks (st : BotState) (uid : Nat) :
    (edit_data st uid).1.tasks = st.tasks := by
  unfold edit_data
  try dsimp only
  repeat' split
  all_goals rfl

lemma process_company_tasks (st : BotState) (uid : Nat) (text : String) :
    (process_company st uid text).1.tasks = st.tasks := by
  unfold process_company
  try dsimp only
  repeat' split
  all_goals rfl

lemma process_full_name_tasks (st : BotState) (uid : Nat) (text : String) :
    (process_full_name st uid text).1.tasks = st.tasks := by
  unfold process_full_name
  try dsimp only
  repeat' split
  all_goals rfl

lemma process_phone_tasks (st : BotState) (uid : Nat) (text : String) :
    (process_phone st uid text).1.tasks = st.tasks := by
  unfold process_phone
  try dsimp only
  repeat' split
  all_goals rfl

lemma process_truck_tasks (st : BotState) (uid : Nat) (text : String) :
    (process_truck st uid text).1.tasks = st.tasks := by
  unfold process_truck
  try dsimp only
  repeat' split
  all_goals rfl

lemma process_edit_company_tasks (st : BotState) (uid : Nat) (text : String) :
    (process_edit_company st uid text).1.tasks = st.tasks := by
  unfold process_edit_company
  try dsimp only
  repeat' split
  all_goals rfl

lemma process_edit_full_name_tasks (st : BotState) (uid : Nat) (text : String) :
    (process_edit_full_name st uid text).1.tasks = st.tasks := by
  unfold process_edit_full_name
  try dsimp only
  repeat' split
  all_goals rfl

lemma process_edit_phone_tasks (st : BotState) (uid : Nat) (text : String) :
    (process_edit_phone st uid text).1.tasks = st.tasks := by
  unfold process_edit_phone
  try dsimp only
  repeat' split
  all_goals rfl

lemma process_edit_truck_tasks (st : BotState) (uid : Nat) (text : String) :
    (process_edit_truck st uid text).1.tasks = st.tasks := by
  unfold process_edit_truck
  try dsimp only
  repeat' split
  all_goals rfl

lemma handle_unknown_tasks (st : BotState) (text : String) :
    (handle_unknown st text).1.tasks = st.tasks := by
  unfold handle_unknown
  try dsimp only
  repeat' split
  all_goals rfl

lemma create_task_tasks (st : BotState) (uid : Nat) (text : String) :
    (create_task st uid text).1.tasks = st.tasks ∨
    (create_task st uid text).1.tasks = st.tasks ++
      [{ taskId := nextTaskId st.tasks, driverId := uid, taskType := text, status := "created",
         managerId := none, bolNumber := none, trailerNumber := none,
         createdAt := st.now, updatedAt := st.now }] := by
  unfold create_task
  cases findDriver st.drivers uid
  · exact Or.inl rfl
  · exact Or.inr rfl

lemma take_task_tasks (st : BotState) (m : Nat) (name : String) (tid : Nat) :
    (take_task st m name tid).1.tasks = st.tasks ∨
    (∃ task, findTask st.tasks tid = some task ∧ task.status = "created" ∧
      ([task.taskType, task.status, task.bolNumber.getD "", task.trailerNumber.getD ""].any isSpamField) = false ∧
      (take_task st m name tid).1.tasks =
        updateTasks st.tasks tid (fun x => { x with status := "in_progress", managerId := some m })) := by
  unfold take_task
  cases heq : findTask st.tasks tid with
  | none => exact Or.inl rfl
  | some task =>
      dsimp only
      by_cases hspam : ([task.taskType, task.status, task.bolNumber.getD "", task.trailerNumber.getD ""].any isSpamField) = true
      · rw [if_pos hspam]; exact Or.inl rfl
      · rw [if_neg hspam]
        by_cases hstat : task.status ≠ "created"
        · rw [if_pos hstat]; exact Or.inl rfl
        · rw [if_neg hstat]
          refine Or.inr ⟨task, rfl, of_not_not hstat, by simpa using hspam, ?_⟩
          cases findDriver st.drivers task.driverId <;> rfl

lemma finish_task_tasks (st : BotState) (m : Nat) (name : String) (tid : Nat) :
    (finish_task st m name tid).1.tasks = st.tasks ∨
    (∃ task, findTask st.tasks tid = some task ∧ task.managerId = some m ∧
      (finish_task st m name tid).1.tasks =
        update_task st.tasks tid st.now (fun x => { x with status := "completed" })) := by
  unfold finish_task
  cases heq : findTask st.tasks tid with
  | none => exact Or.inl rfl
  | some task =>
      dsimp only
      by_cases hm : task.managerId ≠ some m
      · rw [if_pos hm]; exact Or.inl rfl
      · rw [if_neg hm]
        refine Or.inr ⟨task, rfl, of_not_not hm, ?_⟩
        cases findDriver st.drivers task.driverId <;> rfl

lemma process_trailer_tasks (st : BotState) (uid : Nat) (text : String) :
    (process_trailer st uid text).1.tasks = st.tasks ∨
    (∃ tid b, (getSession st.sessions uid).data.taskId = some tid ∧
       (getSession st.sessions uid).data.bol = some b ∧
       isSpamField (pyStrip text) = false ∧
       (process_trailer st uid text).1.tasks =
         update_task st.tasks tid st.now
           (fun x => { x with bolNumber := some b, trailerNumber := some (pyStrip text) })) := by
  unfold process_trailer
  dsimp only
  cases hTid : (getSession st.sessions uid).data.taskId with
  | none => exact Or.inl rfl
  | some tid =>
      cases hBol : (getSession st.sessions uid).data.bol with
      | none => exact Or.inl rfl
      | some b =>
          dsimp only
          by_cases hspam : isSpamField (pyStrip text) = true
          · rw [if_pos hspam]; exact Or.inl rfl
          · rw [if_neg hspam]
            refine Or.inr ⟨tid, b, rfl, rfl, by simpa using hspam, ?_⟩
            repeat' split
            all_goals rfl

/-- Which handlers can touch the task table: either the tasks are unchanged, or
the event was routed to create_task, or to process_trailer while the session
was at the trailer step. -/
lemma stepMsg_tasks_cases (st : BotState) (uid : Nat) (text : String) :
    (stepMsg st uid text).1.tasks = st.tasks
    ∨ (stepMsg st uid text = create_task st uid text ∧ text ∈ taskTypeLabels)
    ∨ (stepMsg st uid text = process_trailer st uid text ∧
        (getSession st.sessions uid).dstate = some DState.SEND_TRAILER) := by
  unfold stepMsg
  by_cases h1 : text ∈ taskTypeLabels
  · rw [if_pos h1]; exact Or.inr (Or.inl ⟨rfl, h1⟩)
  rw [if_neg h1]
  by_cases h2 : text = "Send Data"
  · rw [if_pos h2]; exact Or.inl (start_send_data_tasks st uid)
  rw [if_neg h2]
  by_cases h3 : (getSession st.sessions uid).dstate = some DState.SEND_TASK_ID
  · rw [if_pos h3]; exact Or.inl (process_task_id_tasks st uid text)
  rw [if_neg h3]
  by_cases h4 : (getSession st.sessions uid).dstate = some DState.SEND_BOL
  · rw [if_pos h4]; exact Or.inl (process_bol_tasks st uid text)
  rw [if_neg h4]
  by_cases h5 : (getSession st.sessions uid).dstate = some DState.SEND_TRAILER
  · rw [if_pos h5]; exact Or.inr (Or.inr ⟨rfl, h5⟩)
  rw [if_neg h5]
  by_cases h6 : text = "Check Status"
  · rw [if_pos h6]; exact Or.inl (check_task_status_tasks st uid)
  rw [if_neg h6]
  by_cases h7 : text = "/start"
  · rw [if_pos h7]; exact Or.inl (cmd_start_tasks st uid)
  rw [if_neg h7]
  by_cases h8 : text = "/cancel"
  · rw [if_pos h8]; exact Or.inl (cancel_registration_tasks st uid)
  rw [if_neg h8]
  by_cases h9 : text = "/menu"
  · rw [if_pos h9]; exact Or.inl rfl
  rw [if_neg h9]
  by_cases h10 : text = "‚öôÔ∏è Settings"
  · rw [if_pos h10]; exact Or.inl (settings_tasks st uid)
  rw [if_neg h10]
  by_cases h11 : text = "Edit Profile"
  · rw [if_pos h11]; exact Or.inl (edit_data_tasks st uid)
  rw [if_neg h11]
  by_cases h12 : (getSession st.sessions uid).dstate = some DState.REG_COMPANY
  · rw [if_pos h12]; exact Or.inl (process_company_tasks st uid text)
  rw [if_neg h12]
  by_cases h13 : (getSession st.sessions uid).dstate = some DState.REG_FULL_NAME
  · rw [if_pos h13]; exact Or.inl (process_full_name_tasks st uid text)
  rw [if_neg h13]
  by_cases h14 : (getSession st.sessions uid).dstate = some DState.REG_PHONE
  · rw [if_pos h14]; exact Or.inl (process_phone_tasks st uid text)
  rw [if_neg h14]
  by_cases h15 : (getSession st.sessions uid).dstate = some DState.REG_TRUCK
  · rw [if_pos h15]; exact Or.inl (process_truck_tasks st uid text)
  rw [if_neg h15]
  by_cases h16 : (getSession st.sessions uid).dstate = some DState.EDIT_COMPANY
  · rw [if_pos h16]; exact Or.inl (process_edit_company_tasks st uid text)
  rw [if_neg h16]
  by_cases h17 : (getSession st.sessions uid).dstate = some DState.EDIT_FULL_NAME
  · rw [if_pos h17]; exact Or.inl (process_edit_full_name_tasks st uid text)
  rw [if_neg h17]
  by_cases h18 : (getSession st.sessions uid).dstate = some DState.EDIT_PHONE
  · rw [if_pos h18]; exact Or.inl (process_edit_phone_tasks st uid text)
  rw [if_neg h18]
  by_cases h19 : (getSession st.sessions uid).dstate = some DState.EDIT_TRUCK
  · rw [if_pos h19]; exact Or.inl (process_edit_truck_tasks st uid text)
  rw [if_neg h19]
  by_cases h20 : text = "Back"
  · rw [if_pos h20]; exact Or.inl rfl
  rw [if_neg h20]
  exact Or.inl (handle_unknown_tasks st text)

/-- Routing: in state SEND_TASK_ID any text that is not a task-type label and
not the Send Data trigger reaches process_task_id. -/
lemma stepMsg_send_task_id {st : BotState} {uid : Nat} {text : String}
    (hds : (getSession st.sessions uid).dstate = some DState.SEND_TASK_ID)
    (h1 : text ∉ taskTypeLabels) (h2 : text ≠ "Send Data") :
    stepMsg st uid text = process_task_id st uid text := by
  unfold stepMsg
  rw [if_neg h1, if_neg h2, if_pos hds]

/-- Routing: in state SEND_TRAILER any text that is not a task-type label and
not the Send Data trigger reaches process_trailer. -/
lemma stepMsg_send_trailer {st : BotState} {uid : Nat} {text : String}
    (hds : (getSession st.sessions uid).dstate = some DState.SEND_TRAILER)
    (h1 : text ∉ taskTypeLabels) (h2 : text ≠ "Send Data") :
    stepMsg st uid text = process_trailer st uid text := by
  unfold stepMsg
  rw [if_neg h1, if_neg h2, if_neg (by simp [hds]), if_neg (by simp [hds]), if_pos hds]

/-- Routing: in state REG_COMPANY, text matching no earlier handler reaches
process_company. -/
lemma stepMsg_reg_company {st : BotState} {uid : Nat} {text : String}
    (hds : (getSession st.sessions uid).dstate = some DState.REG_COMPANY)
    (h1 : text ∉ taskTypeLabels) (h2 : text ≠ "Send Data") (h3 : text ≠ "Check Status")
    (h4 : text ≠ "/start") (h5 : text ≠ "/cancel") (h6 : text ≠ "/menu")
    (h7 : text ≠ "‚öôÔ∏è Settings") (h8 : text ≠ "Edit Profile") :
    stepMsg st uid text = process_company st uid text := by
  unfold stepMsg
  rw [if_neg h1, if_neg h2, if_neg (by simp [hds]), if_neg (by simp [hds]), if_neg (by simp [hds]), if_neg h3, if_neg h4, if_neg h5, if_neg h6, if_neg h7, if_neg h8, if_pos hds]

/-- Routing: in state REG_FULL_NAME, text matching no earlier handler reaches
process_full_name. -/
lemma stepMsg_reg_full_name {st : BotState} {uid : Nat} {text : String}
    (hds : (getSession st.sessions uid).dstate = some DState.REG_FULL_NAME)
    (h1 : text ∉ taskTypeLabels) (h2 : text ≠ "Send Data") (h3 : text ≠ "Check Status")
    (h4 : text ≠ "/start") (h5 : text ≠ "/cancel") (h6 : text ≠ "/menu")
    (h7 : text ≠ "‚öôÔ∏è Settings") (h8 : text ≠ "Edit Profile") :
    stepMsg st uid text = process_full_name st uid text := by
  unfold stepMsg
  rw [if_neg h1, if_neg h2, if_neg (by simp [hds]), if_neg (by simp [hds]), if_neg (by simp [hds]), if_neg h3, if_neg h4, if_neg h5, if_neg h6, if_neg h7, if_neg h8, if_neg (by simp [hds]), if_pos hds]

/-- Routing: in state REG_PHONE, text matching no earlier handler reaches
process_phone. -/
lemma stepMsg_reg_phone {st : BotState} {uid : Nat} {text : String}
    (hds : (getSession st.sessions uid).dstate = some DState.REG_PHONE)
    (h1 : text ∉ taskTypeLabels) (h2 : text ≠ "Send Data") (h3 : text ≠ "Check Status")
    (h4 : text ≠ "/start") (h5 : text ≠ "/cancel") (h6 : text ≠ "/menu")
    (h7 : text ≠ "‚öôÔ∏è Settings") (h8 : text ≠ "Edit Profile") :
    stepMsg st uid text = process_phone st uid text := by
  unfold stepMsg
  rw [if_neg h1, if_neg h2, if_neg (by simp [hds]), if_neg (by simp [hds]), if_neg (by simp [hds]), if_neg h3, if_neg h4, if_neg h5, if_neg h6, if_neg h7, if_neg h8, if_neg (by simp [hds]), if_neg (by simp [hds]), if_pos hds]

/-- Routing: in state REG_TRUCK, text matching no earlier handler reaches
process_truck. -/
lemma stepMsg_reg_truck {st : BotState} {uid : Nat} {text : String}
    (hds : (getSession st.sessions uid).dstate = some DState.REG_TRUCK)
    (h1 : text ∉ taskTypeLabels) (h2 : text ≠ "Send Data") (h3 : text ≠ "Check Status")
    (h4 : text ≠ "/start") (h5 : text ≠ "/cancel") (h6 : text ≠ "/menu")
    (h7 : text ≠ "‚öôÔ∏è Settings") (h8 : text ≠ "Edit Profile") :
    stepMsg st uid text = process_truck st uid text := by
  unfold stepMsg
  rw [if_neg h1, if_neg h2, if_neg (by simp [hds]), if_neg (by simp [hds]), if_neg (by simp [hds]), if_neg h3, if_neg h4, if_neg h5, if_neg h6, if_neg h7, if_neg h8, if_neg (by simp [hds]), if_neg (by simp [hds]), if_neg (by simp [hds]), if_pos hds]

/-- Routing: in state EDIT_COMPANY, text matching no earlier handler reaches
process_edit_company. -/
lemma stepMsg_edit_company {st : BotState} {uid : Nat} {text : String}
    (hds : (getSession st.sessions uid).dstate = some DState.EDIT_COMPANY)
    (h1 : text ∉ taskTypeLabels) (h2 : text ≠ "Send Data") (h3 : text ≠ "Check Status")
    (h4 : text ≠ "/start") (h5 : text ≠ "/cancel") (h6 : text ≠ "/menu")
    (h7 : text ≠ "‚öôÔ∏è Settings") (h8 : text ≠ "Edit Profile") :
    stepMsg st uid text = process_edit_company st uid text := by
  unfold stepMsg
  rw [if_neg h1, if_neg h2, if_neg (by simp [hds]), if_neg (by simp [hds]), if_neg (by simp [hds]), if_neg h3, if_neg h4, if_neg h5, if_neg h6, if_neg h7, if_neg h8, if_neg (by simp [hds]), if_neg (by simp [hds]), if_neg (by simp [hds]), if_neg (by simp [hds]), if_pos hds]

/-- Routing: in state EDIT_FULL_NAME, text matching no earlier handler reaches
process_edit_full_name. -/
lemma stepMsg_edit_full_name {st : BotState} {uid : Nat} {text : String}
    (hds : (getSession st.sessions uid).dstate = some DState.EDIT_FULL_NAME)
    (h1 : text ∉ taskTypeLabels) (h2 : text ≠ "Send Data") (h3 : text ≠ "Check Status")
    (h4 : text ≠ "/start") (h5 : text ≠ "/cancel") (h6 : text ≠ "/menu")
    (h7 : text ≠ "‚öôÔ∏è Settings") (h8 : text ≠ "Edit Profile") :
    stepMsg st uid text = process_edit_full_name st uid text := by
  unfold stepMsg
  rw [if_neg h1, if_neg h2, if_neg (by simp [hds]), if_neg (by simp [hds]), if_neg (by simp [hds]), if_neg h3, if_neg h4, if_neg h5, if_neg h6, if_neg h7, if_neg h8, if_neg (by simp [hds]), if_neg (by simp [hds]), if_neg (by simp [hds]), if_neg (by simp [hds]), if_neg (by simp [hds]), if_pos hds]

/-- Routing: in state EDIT_PHONE, text matching no earlier handler reaches
process_edit_phone. -/
lemma stepMsg_edit_phone {st : BotState} {uid : Nat} {text : String}
    (hds : (getSession st.sessions uid).dstate = some DState.EDIT_PHONE)
    (h1 : text ∉ taskTypeLabels) (h2 : text ≠ "Send Data") (h3 : text ≠ "Check Status")
    (h4 : text ≠ "/start") (h5 : text ≠ "/cancel") (h6 : text ≠ "/menu")
    (h7 : text ≠ "‚öôÔ∏è Settings") (h8 : text ≠ "Edit Profile") :
    stepMsg st uid text = process_edit_phone st uid text := by
  unfold stepMsg
  rw [if_neg h1, if_neg h2, if_neg (by simp [hds]), if_neg (by simp [hds]), if_neg (by simp [hds]), if_neg h3, if_neg h4, if_neg h5, if_neg h6, if_neg h7, if_neg h8, if_neg (by simp [hds]), if_neg (by simp [hds]), if_neg (by simp [hds]), if_neg (by simp [hds]), if_neg (by simp [hds]), if_neg (by simp [hds]), if_pos hds]

/-- Routing: in state EDIT_TRUCK, text matching no earlier handler reaches
process_edit_truck. -/
lemma stepMsg_edit_truck {st : BotState} {uid : Nat} {text : String}
    (hds : (getSession st.sessions uid).dstate = some DState.EDIT_TRUCK)
    (h1 : text ∉ taskTypeLabels) (h2 : text ≠ "Send Data") (h3 : text ≠ "Check Status")
    (h4 : text ≠ "/start") (h5 : text ≠ "/cancel") (h6 : text ≠ "/menu")
    (h7 : text ≠ "‚öôÔ∏è Settings") (h8 : text ≠ "Edit Profile") :
    stepMsg st uid text = process_edit_truck st uid text := by
  unfold stepMsg
  rw [if_neg h1, if_neg h2, if_neg (by simp [hds]), if_neg (by simp [hds]), if_neg (by simp [hds]), if_neg h3, if_neg h4, if_neg h5, if_neg h6, if_neg h7, if_neg h8, if_neg (by simp [hds]), if_neg (by simp [hds]), if_neg (by simp [hds]), if_neg (by simp [hds]), if_neg (by simp [hds]), if_neg (by simp [hds]), if_neg (by simp [hds]), if_pos hds]

/-- Routing: the text Edit Profile reaches edit_data whenever the session is
not inside the submit-delivery sub-dialog. -/
lemma stepMsg_edit_profile {st : BotState} {uid : Nat}
    (hn1 : (getSession st.sessions uid).dstate ≠ some DState.SEND_TASK_ID)
    (hn2 : (getSession st.sessions uid).dstate ≠ some DState.SEND_BOL)
    (hn3 : (getSession st.sessions uid).dstate ≠ some DState.SEND_TRAILER) :
    stepMsg st uid "Edit Profile" = edit_data st uid := by
  unfold stepMsg
  rw [if_neg (by decide), if_neg (by decide), if_neg hn1, if_neg hn2, if_neg hn3,
      if_neg (by decide), if_neg (by decide), if_neg (by decide), if_neg (by decide),
      if_neg (by decide), if_pos rfl]

lemma findTask_update_take (l : List Task) (tid tid' m : Nat) :
    findTask (updateTasks l tid (fun x => { x with status := "in_progress", managerId := some m })) tid'
      = (findTask l tid').map
          (fun x => if x.taskId = tid then { x with status := "in_progress", managerId := some m } else x) :=
  findTask_updateTasks (fun _ => rfl)

lemma findTask_update_finish (l : List Task) (tid tid' now : Nat) :
    findTask (update_task l tid now (fun x => { x with status := "completed" })) tid'
      = (findTask l tid').map
          (fun x => if x.taskId = tid then { x with status := "completed", updatedAt := now } else x) :=
  findTask_updateTasks (fun _ => rfl)

lemma findTask_update_data (l : List Task) (tid tid' now : Nat) (b tr : String) :
    findTask (update_task l tid now (fun x => { x with bolNumber := some b, trailerNumber := some tr })) tid'
      = (findTask l tid').map
          (fun x => if x.taskId = tid then { x with bolNumber := some b, trailerNumber := some tr, updatedAt := now } else x) :=
  findTask_updateTasks (fun _ => rfl)

/-- What one event can do to an existing task row: leave it unchanged, claim it
(status created becomes in_progress with the claiming manager), complete it
(by its stored manager, refreshing updated_at), or write its delivery data
from the trailer step of the sub-dialog run by the owning driver. -/
lemma step_task_cases {st : BotState} (hInv : Inv st) (ev : Event) (tid : Nat) (t : Task)
    (ht : findTask st.tasks tid = some t) :
    ∃ t', findTask (step st ev).1.tasks tid = some t' ∧
      (t' = t
       ∨ (∃ m name, ev = .takeCb m name tid ∧ t.status = "created" ∧
            t' = { t with status := "in_progress", managerId := some m })
       ∨ (∃ m name, ev = .finishCb m name tid ∧ t.managerId = some m ∧
            t' = { t with status := "completed", updatedAt := st.now + 1 })
       ∨ (∃ uid text b, ev = .msg uid text ∧
            (getSession st.sessions uid).dstate = some DState.SEND_TRAILER ∧
            (getSession st.sessions uid).data.taskId = some tid ∧
            (getSession st.sessions uid).data.bol = some b ∧
            uid = t.driverId ∧ isSpamField (pyStrip text) = false ∧
            t' = { t with bolNumber := some b, trailerNumber := some (pyStrip text), updatedAt := st.now + 1 })) := by
  have htid := (findTask_mem ht).2
  cases ev with
  | takeCb m name tid' =>
      rcases take_task_tasks { st with now := st.now + 1 } m name tid' with hunch | hsucc
      · refine ⟨t, ?_, Or.inl rfl⟩
        show findTask (take_task { st with now := st.now + 1 } m name tid').1.tasks tid = some t
        rw [hunch]; exact ht
      · obtain ⟨task, heq, hstat, _, heqtasks⟩ := hsucc
        have heq' : findTask st.tasks tid' = some task := heq
        have heqtasks' : (take_task { st with now := st.now + 1 } m name tid').1.tasks
            = updateTasks st.tasks tid' (fun x => { x with status := "in_progress", managerId := some m }) := heqtasks
        by_cases he : tid' = tid
        · subst he
          have htt : task = t := Option.some.inj (heq'.symm.trans ht)
          subst htt
          refine ⟨{ task with status := "in_progress", managerId := some m }, ?_,
                  Or.inr (Or.inl ⟨m, name, rfl, hstat, rfl⟩)⟩
          show findTask (take_task { st with now := st.now + 1 } m name tid').1.tasks tid' = some _
          rw [heqtasks', findTask_update_take, ht]
          show some (if task.taskId = tid' then _ else task) = some _
          rw [if_pos htid]
        · refine ⟨t, ?_, Or.inl rfl⟩
          show findTask (take_task { st with now := st.now + 1 } m name tid').1.tasks tid = some t
          rw [heqtasks', findTask_update_take, ht]
          show some (if t.taskId = tid' then _ else t) = some t
          rw [if_neg (fun hx => he ((htid.symm.trans hx).symm))]
  | finishCb m name tid' =>
      rcases finish_task_tasks { st with now := st.now + 1 } m name tid' with hunch | hsucc
      · refine ⟨t, ?_, Or.inl rfl⟩
        show findTask (finish_task { st with now := st.now + 1 } m name tid').1.tasks tid = some t
        rw [hunch]; exact ht
      · obtain ⟨task, heq, hmgr, heqtasks⟩ := hsucc
        have heq' : findTask st.tasks tid' = some task := heq
        have heqtasks' : (finish_task { st with now := st.now + 1 } m name tid').1.tasks
            = update_task st.tasks tid' (st.now + 1) (fun x => { x with status := "completed" }) := heqtasks
        by_cases he : tid' = tid
        · subst he
          have htt : task = t := Option.some.inj (heq'.symm.trans ht)
          subst htt
          refine ⟨{ task with status := "completed", updatedAt := st.now + 1 }, ?_,
                  Or.inr (Or.inr (Or.inl ⟨m, name, rfl, hmgr, rfl⟩))⟩
          show findTask (finish_task { st with now := st.now + 1 } m name tid').1.tasks tid' = some _
          rw [heqtasks', findTask_update_finish, ht]
          show some (if task.taskId = tid' then _ else task) = some _
          rw [if_pos htid]
        · refine ⟨t, ?_, Or.inl rfl⟩
          show findTask (finish_task { st with now := st.now + 1 } m name tid').1.tasks tid = some t
          rw [heqtasks', findTask_update_finish, ht]
          show some (if t.taskId = tid' then _ else t) = some t
          rw [if_neg (fun hx => he ((htid.symm.trans hx).symm))]
  | msg uid text =>
      rcases stepMsg_tasks_cases { st with now := st.now + 1 } uid text with
        hunch | ⟨hroute, _⟩ | ⟨hroute, hds⟩
      · refine ⟨t, ?_, Or.inl rfl⟩
        show findTask (stepMsg { st with now := st.now + 1 } uid text).1.tasks tid = some t
        rw [hunch]; exact ht
      · rcases create_task_tasks { st with now := st.now + 1 } uid text with hh | hh
        · refine ⟨t, ?_, Or.inl rfl⟩
          show findTask (stepMsg { st with now := st.now + 1 } uid text).1.tasks tid = some t
          rw [hroute, hh]; exact ht
        · refine ⟨t, ?_, Or.inl rfl⟩
          show findTask (stepMsg { st with now := st.now + 1 } uid text).1.tasks tid = some t
          rw [hroute, hh]
          exact findTask_append_some ht
      · rcases process_trailer_tasks { st with now := st.now + 1 } uid text with
          hh | ⟨tid₀, b, hTid, hBol, hnospam, hh⟩
        · refine ⟨t, ?_, Or.inl rfl⟩
          show findTask (stepMsg { st with now := st.now + 1 } uid text).1.tasks tid = some t
          rw [hroute, hh]; exact ht
        · have hTid' : (getSession st.sessions uid).data.taskId = some tid₀ := hTid
          have hBol' : (getSession st.sessions uid).data.bol = some b := hBol
          have hds' : (getSession st.sessions uid).dstate = some DState.SEND_TRAILER := hds
          have hh' : (process_trailer { st with now := st.now + 1 } uid text).1.tasks
              = update_task st.tasks tid₀ (st.now + 1)
                  (fun x => { x with bolNumber := some b, trailerNumber := some (pyStrip text) }) := hh
          by_cases he : tid₀ = tid
          · subst he
            obtain ⟨t₀, hmem, hid₀, hdrv⟩ := (hInv.sess_ok uid).task_owned tid₀ hTid'
            have hfind₀ : findTask st.tasks tid₀ = some t₀ :=
              findTask_of_mem_nodup hInv.ids_nodup hmem hid₀
            have htt : t₀ = t := Option.some.inj (hfind₀.symm.trans ht)
            subst htt
            refine ⟨{ t₀ with bolNumber := some b, trailerNumber := some (pyStrip text), updatedAt := st.now + 1 }, ?_,
                    Or.inr (Or.inr (Or.inr ⟨uid, text, b, rfl, hds', hTid', hBol',
                      hdrv.symm, hnospam, rfl⟩))⟩
            show findTask (stepMsg { st with now := st.now + 1 } uid text).1.tasks tid₀ = some _
            rw [hroute, hh', findTask_update_data, ht]
            show some (if t₀.taskId = tid₀ then _ else t₀) = some _
            rw [if_pos htid]
          · refine ⟨t, ?_, Or.inl rfl⟩
            show findTask (stepMsg { st with now := st.now + 1 } uid text).1.tasks tid = some t
            rw [hroute, hh', findTask_update_data, ht]
            show some (if t.taskId = tid₀ then _ else t) = some t
            rw [if_neg (fun hx => he ((htid.symm.trans hx).symm))]

lemma create_task_drivers (st : BotState) (uid : Nat) (text : String) :
    (create_task st uid text).1.drivers = st.drivers := by
  unfold create_task
  try dsimp only
  repeat' split
  all_goals rfl

lemma start_send_data_drivers (st : BotState) (uid : Nat) :
    (start_send_data st uid).1.drivers = st.drivers := by
  unfold start_send_data
  try dsimp only
  repeat' split
  all_goals rfl

lemma process_task_id_drivers (st : BotState) (uid : Nat) (text : String) :
    (process_task_id st uid text).1.drivers = st.drivers := by
  unfold process_task_id
  try dsimp only
  repeat' split
  all_goals rfl

lemma process_bol_drivers (st : BotState) (uid : Nat) (text : String) :
    (process_bol st uid text).1.drivers = st.drivers := by
  unfold process_bol
  try dsimp only
  repeat' split
  all_goals rfl

lemma process_trailer_drivers (st : BotState) (uid : Nat) (text : String) :
    (process_trailer st uid text).1.drivers = st.drivers := by
  unfold process_trailer
  try dsimp only
  repeat' split
  all_goals rfl

lemma check_task_status_drivers (st : BotState) (uid : Nat) :
    (check_task_status st uid).1.drivers = st.drivers := by
  unfold check_task_status
  try dsimp only
  repeat' split
  all_goals rfl

lemma cmd_start_drivers (st : BotState) (uid : Nat) :
    (cmd_start st uid).1.drivers = st.drivers := by
  unfold cmd_start
  try dsimp only
  repeat' split
  all_goals rfl

lemma cancel_registration_drivers (st : BotState) (uid : Nat) :
    (cancel_registration st uid).1.drivers = st.drivers := by
  unfold cancel_registration
  try dsimp only
  repeat' split
  all_goals rfl

lemma settings_drivers (st : BotState) (uid : Nat) :
    (settings st uid).1.drivers = st.drivers := by
  unfold settings
  try dsimp only
  repeat' split
  all_goals rfl

lemma edit_data_drivers (st : BotState) (uid : Nat) :
    (edit_data st uid).1.drivers = st.drivers := by
  unfold edit_data
  try dsimp only
  repeat' split
  all_goals rfl

lemma process_company_drivers (st : BotState) (uid : Nat) (text : String) :
    (process_company st uid text).1.drivers = st.drivers := by
  unfold process_company
  try dsimp only
  repeat' split
  all_goals rfl

lemma process_full_name_drivers (st : BotState) (uid : Nat) (text : String) :
    (process_full_name st uid text).1.drivers = st.drivers := by
  unfold process_full_name
  try dsimp only
  repeat' split
  all_goals rfl

lemma process_phone_drivers (st : BotState) (uid : Nat) (text : String) :
    (process_phone st uid text).1.drivers = st.drivers := by
  unfold process_phone
  try dsimp only
  repeat' split
  all_goals rfl

lemma process_edit_company_drivers (st : BotState) (uid : Nat) (text : String) :
    (process_edit_company st uid text).1.drivers = st.drivers := by
  unfold process_edit_company
  try dsimp only
  repeat' split
  all_goals rfl

lemma process_edit_full_name_drivers (st : BotState) (uid : Nat) (text : String) :
    (process_edit_full_name st uid text).1.drivers = st.drivers := by
  unfold process_edit_full_name
  try dsimp only
  repeat' split
  all_goals rfl

lemma process_edit_phone_drivers (st : BotState) (uid : Nat) (text : String) :
    (process_edit_phone st uid text).1.drivers = st.drivers := by
  unfold process_edit_phone
  try dsimp only
  repeat' split
  all_goals rfl

lemma handle_unknown_drivers (st : BotState) (text : String) :
    (handle_unknown st text).1.drivers = st.drivers := by
  unfold handle_unknown
  try dsimp only
  repeat' split
  all_goals rfl

/-- Which handlers can touch the driver table: either the drivers are
unchanged, or the event was routed to the registration terminal step in state
REG_TRUCK, or to the edit terminal step in state EDIT_TRUCK. -/
lemma stepMsg_drivers_cases (st : BotState) (uid : Nat) (text : String) :
    (stepMsg st uid text).1.drivers = st.drivers
    ∨ (stepMsg st uid text = process_truck st uid text ∧
        (getSession st.sessions uid).dstate = some DState.REG_TRUCK)
    ∨ (stepMsg st uid text = process_edit_truck st uid text ∧
        (getSession st.sessions uid).dstate = some DState.EDIT_TRUCK) := by
  unfold stepMsg
  by_cases h1 : text ∈ taskTypeLabels
  · rw [if_pos h1]; exact Or.inl (create_task_drivers st uid text)
  rw [if_neg h1]
  by_cases h2 : text = "Send Data"
  · rw [if_pos h2]; exact Or.inl (start_send_data_drivers st uid)
  rw [if_neg h2]
  by_cases h3 : (getSession st.sessions uid).dstate = some DState.SEND_TASK_ID
  · rw [if_pos h3]; exact Or.inl (process_task_id_drivers st uid text)
  rw [if_neg h3]
  by_cases h4 : (getSession st.sessions uid).dstate = some DState.SEND_BOL
  · rw [if_pos h4]; exact Or.inl (process_bol_drivers st uid text)
  rw [if_neg h4]
  by_cases h5 : (getSession st.sessions uid).dstate = some DState.SEND_TRAILER
  · rw [if_pos h5]; exact Or.inl (process_trailer_drivers st uid text)
  rw [if_neg h5]
  by_cases h6 : text = "Check Status"
  · rw [if_pos h6]; exact Or.inl (check_task_status_drivers st uid)
  rw [if_neg h6]
  by_cases h7 : text = "/start"
  · rw [if_pos h7]; exact Or.inl (cmd_start_drivers st uid)
  rw [if_neg h7]
  by_cases h8 : text = "/cancel"
  · rw [if_pos h8]; exact Or.inl (cancel_registration_drivers st uid)
  rw [if_neg h8]
  by_cases h9 : text = "/menu"
  · rw [if_pos h9]; exact Or.inl rfl
  rw [if_neg h9]
  by_cases h10 : text = "‚öôÔ∏è Settings"
  · rw [if_pos h10]; exact Or.inl (settings_drivers st uid)
  rw [if_neg h10]
  by_cases h11 : text = "Edit Profile"
  · rw [if_pos h11]; exact Or.inl (edit_data_drivers st uid)
  rw [if_neg h11]
  by_cases h12 : (getSession st.sessions uid).dstate = some DState.REG_COMPANY
  · rw [if_pos h12]; exact Or.inl (process_company_drivers st uid text)
  rw [if_neg h12]
  by_cases h13 : (getSession st.sessions uid).dstate = some DState.REG_FULL_NAME
  · rw [if_pos h13]; exact Or.inl (process_full_name_drivers st uid text)
  rw [if_neg h13]
  by_cases h14 : (getSession st.sessions uid).dstate = some DState.REG_PHONE
  · rw [if_pos h14]; exact Or.inl (process_phone_drivers st uid text)
  rw [if_neg h14]
  by_cases h15 : (getSession st.sessions uid).dstate = some DState.REG_TRUCK
  · rw [if_pos h15]; exact Or.inr (Or.inl ⟨rfl, h15⟩)
  rw [if_neg h15]
  by_cases h16 : (getSession st.sessions uid).dstate = some DState.EDIT_COMPANY
  · rw [if_pos h16]; exact Or.inl (process_edit_company_drivers st uid text)
  rw [if_neg h16]
  by_cases h17 : (getSession st.sessions uid).dstate = some DState.EDIT_FULL_NAME
  · rw [if_pos h17]; exact Or.inl (process_edit_full_name_drivers st uid text)
  rw [if_neg h17]
  by_cases h18 : (getSession st.sessions uid).dstate = some DState.EDIT_PHONE
  · rw [if_pos h18]; exact Or.inl (process_edit_phone_drivers st uid text)
  rw [if_neg h18]
  by_cases h19 : (getSession st.sessions uid).dstate = some DState.EDIT_TRUCK
  · rw [if_pos h19]; exact Or.inr (Or.inr ⟨rfl, h19⟩)
  rw [if_neg h19]
  by_cases h20 : text = "Back"
  · rw [if_pos h20]; exact Or.inl rfl
  rw [if_neg h20]
  exact Or.inl (handle_unknown_drivers st text)

/- ---------------- The claims ---------------- -/

/-- C1: on a reachable state, a claim (take task) invocation on an existing
task succeeds exactly when the status is created, setting status to
in_progress and manager id to the invoking manager; for any other status the
invoker is answered "Task is already taken or completed." and the task table
is left completely unchanged. -/
theorem claim_C1 (st : BotState) (hr : Reachable st) (m : Nat) (name : String) (tid : Nat)
    (t : Task) (ht : findTask st.tasks tid = some t) :
    (t.status = "created" →
       ∃ t', findTask (step st (.takeCb m name tid)).1.tasks tid = some t' ∧
         t'.status = "in_progress" ∧ t'.managerId = some m) ∧
    (t.status ≠ "created" →
       (step st (.takeCb m name tid)).1.tasks = st.tasks ∧
       (step st (.takeCb m name tid)).2 = [.toInvoker "Task is already taken or completed."]) := by
  have hInv := reachable_inv hr
  have hclean := taskOk_fields_clean (hInv.task_ok t (findTask_mem ht).1)
  have ht' : findTask ({ st with now := st.now + 1 } : BotState).tasks tid = some t := ht
  constructor
  · intro hs
    have htasks : (take_task { st with now := st.now + 1 } m name tid).1.tasks
        = updateTasks st.tasks tid (fun x => { x with status := "in_progress", managerId := some m }) := by
      unfold take_task
      rw [ht']
      dsimp only
      rw [if_neg (by simp [hclean]), if_neg (not_not_intro hs)]
      cases findDriver st.drivers t.driverId <;> rfl
    refine ⟨{ t with status := "in_progress", managerId := some m }, ?_, rfl, rfl⟩
    show findTask (take_task { st with now := st.now + 1 } m name tid).1.tasks tid = some _
    rw [htasks, findTask_update_take, ht]
    show some (if t.taskId = tid then _ else t) = some _
    rw [if_pos (findTask_mem ht).2]
  · intro hs
    have hkey : take_task { st with now := st.now + 1 } m name tid
        = ({ st with now := st.now + 1 }, [.toInvoker "Task is already taken or completed."]) := by
      unfold take_task
      rw [ht']
      dsimp only
      rw [if_neg (by simp [hclean]), if_pos hs]
    constructor
    · show (take_task { st with now := st.now + 1 } m name tid).1.tasks = st.tasks
      rw [hkey]
    · show (take_task { st with now := st.now + 1 } m name tid).2 = _
      rw [hkey]

theorem claim_C1_witness :
    (∃ t', findTask (step (run init evsTask) (.takeCb 500 "Mgr" 1)).1.tasks 1 = some t' ∧
       t'.status = "in_progress" ∧ t'.managerId = some 500) ∧
    ((step (run init evsTaken) (.takeCb 600 "M2" 1)).1.tasks = (run init evsTaken).tasks ∧
     (step (run init evsTaken) (.takeCb 600 "M2" 1)).2
       = [.toInvoker "Task is already taken or completed."]) :=
  ⟨(claim_C1 (run init evsTask) ⟨evsTask, rfl⟩ 500 "Mgr" 1 taskCreated1 (by decide)).1 (by decide),
   (claim_C1 (run init evsTaken) ⟨evsTaken, rfl⟩ 600 "M2" 1 taskTaken1 (by decide)).2 (by decide)⟩

/-- C2: completing an existing task sets its status to completed exactly when
the invoking manager equals the stored manager id; every other invoker gets
the ownership rejection and both tables are left unchanged. -/
theorem claim_C2 (st : BotState) (m : Nat) (name : String) (tid : Nat) (t : Task)
    (ht : findTask st.tasks tid = some t) :
    (t.managerId = some m →
       ∃ t', findTask (step st (.finishCb m name tid)).1.tasks tid = some t' ∧
         t'.status = "completed") ∧
    (t.managerId ≠ some m →
       (step st (.finishCb m name tid)).1.tasks = st.tasks ∧
       (step st (.finishCb m name tid)).1.drivers = st.drivers ∧
       (step st (.finishCb m name tid)).2
         = [.toInvoker "You cannot complete someone else's task"]) := by
  have ht' : findTask ({ st with now := st.now + 1 } : BotState).tasks tid = some t := ht
  constructor
  · intro hm
    have htasks : (finish_task { st with now := st.now + 1 } m name tid).1.tasks
        = update_task st.tasks tid (st.now + 1) (fun x => { x with status := "completed" }) := by
      unfold finish_task
      rw [ht']
      dsimp only
      rw [if_neg (not_not_intro hm)]
      cases findDriver st.drivers t.driverId <;> rfl
    refine ⟨{ t with status := "completed", updatedAt := st.now + 1 }, ?_, rfl⟩
    show findTask (finish_task { st with now := st.now + 1 } m name tid).1.tasks tid = some _
    rw [htasks, findTask_update_finish, ht]
    show some (if t.taskId = tid then _ else t) = some _
    rw [if_pos (findTask_mem ht).2]
  · intro hm
    have hkey : finish_task { st with now := st.now + 1 } m name tid
        = ({ st with now := st.now + 1 }, [.toInvoker "You cannot complete someone else's task"]) := by
      unfold finish_task
      rw [ht']
      dsimp only
      rw [if_pos hm]
    refine ⟨?_, ?_, ?_⟩
    · show (finish_task { st with now := st.now + 1 } m name tid).1.tasks = st.tasks
      rw [hkey]
    · show (finish_task { st with now := st.now + 1 } m name tid).1.drivers = st.drivers
      rw [hkey]
    · show (finish_task { st with now := st.now + 1 } m name tid).2 = _
      rw [hkey]

theorem claim_C2_witness :
    (∃ t', findTask (step (run init evsTaken) (.finishCb 500 "Mgr" 1)).1.tasks 1 = some t' ∧
       t'.status = "completed") ∧
    ((step (run init evsTaken) (.finishCb 600 "Other" 1)).1.tasks = (run init evsTaken).tasks ∧
     (step (run init evsTaken) (.finishCb 600 "Other" 1)).1.drivers = (run init evsTaken).drivers ∧
     (step (run init evsTaken) (.finishCb 600 "Other" 1)).2
       = [.toInvoker "You cannot complete someone else's task"]) :=
  ⟨(claim_C2 (run init evsTaken) 500 "Mgr" 1 taskTaken1 (by decide)).1 (by decide),
   (claim_C2 (run init evsTaken) 600 "Other" 1 taskTaken1 (by decide)).2 (by decide)⟩

/-- C3: from any reachable state, one event moves the status of a task by at
most one forward step of the lifecycle created, in_progress, completed, and a
task that did not exist before the event starts at created; hence every
observed status sequence is a prefix of that lifecycle. -/
theorem claim_C3 (st : BotState) (hr : Reachable st) (ev : Event) (tid : Nat) (t' : Task)
    (h2 : findTask (step st ev).1.tasks tid = some t') :
    (findTask st.tasks tid = none → t'.status = "created") ∧
    (∀ t, findTask st.tasks tid = some t →
       statusRank t.status ≤ statusRank t'.status ∧
       statusRank t'.status ≤ statusRank t.status + 1) := by
  have hInv := reachable_inv hr
  constructor
  · intro hnone
    have hnone' : findTask ({ st with now := st.now + 1 } : BotState).tasks tid = none := hnone
    cases ev with
    | takeCb m name tid' =>
        rcases take_task_tasks { st with now := st.now + 1 } m name tid' with hunch | hsucc
        · rw [show (step st (.takeCb m name tid')).1.tasks
              = ({ st with now := st.now + 1 } : BotState).tasks from hunch, hnone'] at h2
          exact absurd h2 (by simp)
        · obtain ⟨task, _, _, _, heqtasks⟩ := hsucc
          rw [show (step st (.takeCb m name tid')).1.tasks
              = updateTasks st.tasks tid' (fun x => { x with status := "in_progress", managerId := some m })
              from heqtasks, findTask_update_take] at h2
          rw [show findTask st.tasks tid = none from hnone] at h2
          exact absurd h2 (by simp)
    | finishCb m name tid' =>
        rcases finish_task_tasks { st with now := st.now + 1 } m name tid' with hunch | hsucc
        · rw [show (step st (.finishCb m name tid')).1.tasks
              = ({ st with now := st.now + 1 } : BotState).tasks from hunch, hnone'] at h2
          exact absurd h2 (by simp)
        · obtain ⟨task, _, _, heqtasks⟩ := hsucc
          rw [show (step st (.finishCb m name tid')).1.tasks
              = update_task st.tasks tid' (st.now + 1) (fun x => { x with status := "completed" })
              from heqtasks, findTask_update_finish] at h2
          rw [show findTask st.tasks tid = none from hnone] at h2
          exact absurd h2 (by simp)
    | msg uid text =>
        rcases stepMsg_tasks_cases { st with now := st.now + 1 } uid text with
          hunch | ⟨hroute, _⟩ | ⟨hroute, _⟩
        · rw [show (step st (.msg uid text)).1.tasks
              = ({ st with now := st.now + 1 } : BotState).tasks from hunch, hnone'] at h2
          exact absurd h2 (by simp)
        · have hts : (step st (.msg uid text)).1.tasks
              = (create_task { st with now := st.now + 1 } uid text).1.tasks :=
            congrArg (fun p => p.1.tasks) hroute
          rcases create_task_tasks { st with now := st.now + 1 } uid text with hh | hh
          · rw [hts, hh, hnone'] at h2
            exact absurd h2 (by simp)
          · rw [hts, hh, findTask_append_none hnone] at h2
            unfold findTask at h2
            rw [List.find?_cons] at h2
            cases hb : ((⟨nextTaskId st.tasks, uid, text, "created", none, none, none,
                st.now + 1, st.now + 1⟩ : Task).taskId == tid) with
            | false => rw [hb] at h2; simp at h2
            | true =>
                rw [hb] at h2
                simp only [cond_true] at h2
                rw [← Option.some.inj h2]
        · have hts : (step st (.msg uid text)).1.tasks
              = (process_trailer { st with now := st.now + 1 } uid text).1.tasks :=
            congrArg (fun p => p.1.tasks) hroute
          rcases process_trailer_tasks { st with now := st.now + 1 } uid text with
            hh | ⟨tid₀, b, _, _, _, hh⟩
          · rw [hts, hh, hnone'] at h2
            exact absurd h2 (by simp)
          · rw [hts, hh, findTask_update_data] at h2
            rw [show findTask st.tasks tid = none from hnone] at h2
            exact absurd h2 (by simp)
  · intro t ht
    obtain ⟨t'', hfind, hdisj⟩ := step_task_cases hInv ev tid t ht
    have htt : t'' = t' := Option.some.inj (hfind.symm.trans h2)
    subst htt
    rcases hdisj with rfl | ⟨m, name, _, hs, rfl⟩ | ⟨m, name, _, hm, rfl⟩ |
      ⟨uid, text, b, _, _, _, _, _, _, rfl⟩
    · exact ⟨le_refl _, Nat.le_succ _⟩
    · rw [hs]
      show statusRank "created" ≤ statusRank "in_progress" ∧
        statusRank "in_progress" ≤ statusRank "created" + 1
      decide
    · have h0 := hInv.task_ok t (findTask_mem ht).1
      have hnc : t.status ≠ "created" := by
        intro hc
        rw [h0.created_unmanaged hc] at hm
        exact absurd hm (by simp)
      rcases h0.status_valid with hv | hv | hv
      · exact absurd hv hnc
      · rw [hv]
        show statusRank "in_progress" ≤ statusRank "completed" ∧
          statusRank "completed" ≤ statusRank "in_progress" + 1
        decide
      · rw [hv]
        show statusRank "completed" ≤ statusRank "completed" ∧
          statusRank "completed" ≤ statusRank "completed" + 1
        decide
    · exact ⟨le_refl _, Nat.le_succ _⟩

theorem claim_C3_witness :
    statusRank taskCreated1.status ≤ statusRank taskTaken1.status ∧
    statusRank taskTaken1.status ≤ statusRank taskCreated1.status + 1 :=
  (claim_C3 (run init evsTask) ⟨evsTask, rfl⟩ (.takeCb 500 "Mgr" 1) 1 taskTaken1
    (by decide)).2 taskCreated1 (by decide)

/-- C4 counterexample: the submit-delivery sub-dialog is not once-only and does
not re-check the status at its final step.  In the trace evsSD2, task 1 first
receives BOL 12345678 and trailer TRL-9 while in_progress; the sub-dialog is
then run again, the manager completes the task in between, and the final
trailer message still overwrites both fields on the already completed task. -/
theorem claim_C4_counterexample :
    findTask (run init (evsSD ++ [.msg 1 "TRL-9"])).tasks 1 = some taskSD1 ∧
    findTask (run init evsSD2).tasks 1
      = some ⟨1, 1, "Check", "completed", some 500, some "22222222", some "TRL-2", 6, 16⟩ := by
  constructor
  · decide
  · decide

/-- C4 amended: BOL and trailer are always null or set together; any change to
them in one event comes from the final trailer step of the sub-dialog, run by
the driver who owns the task, writing both fields in one update that leaves
status and manager unchanged; and the task-id step only accepts a task that is
owned by the sender and in_progress at that moment.  The sub-dialog is not
once-only and the final write does not re-check the status. -/
theorem claim_C4_amended (st : BotState) (hr : Reachable st) :
    (∀ t ∈ st.tasks, (t.bolNumber = none ↔ t.trailerNumber = none)) ∧
    (∀ ev tid t t', findTask st.tasks tid = some t →
       findTask (step st ev).1.tasks tid = some t' →
       (t'.bolNumber ≠ t.bolNumber ∨ t'.trailerNumber ≠ t.trailerNumber) →
       ∃ uid text b, ev = .msg uid text ∧
         (getSession st.sessions uid).dstate = some DState.SEND_TRAILER ∧
         (getSession st.sessions uid).data.taskId = some tid ∧
         (getSession st.sessions uid).data.bol = some b ∧
         uid = t.driverId ∧ isSpamField (pyStrip text) = false ∧
         t'.status = t.status ∧ t'.managerId = t.managerId ∧
         t' = { t with bolNumber := some b, trailerNumber := some (pyStrip text), updatedAt := st.now + 1 }) ∧
    (∀ uid text tid, (getSession st.sessions uid).dstate = some DState.SEND_TASK_ID →
       text ∉ taskTypeLabels → text ≠ "Send Data" →
       ((step st (.msg uid text)).1.sessions uid).data.taskId = some tid →
       (getSession st.sessions uid).data.taskId = some tid ∨
       ∃ t ∈ st.tasks, t.taskId = tid ∧ t.driverId = uid ∧ t.status = "in_progress") := by
  have hInv := reachable_inv hr
  refine ⟨?_, ?_, ?_⟩
  · intro t ht
    exact (hInv.task_ok t ht).together
  · intro ev tid t t' ht h2 hchange
    obtain ⟨t'', hfind, hdisj⟩ := step_task_cases hInv ev tid t ht
    have htt : t'' = t' := Option.some.inj (hfind.symm.trans h2)
    subst htt
    rcases hdisj with rfl | ⟨m, name, hev, hs, rfl⟩ | ⟨m, name, hev, hm, rfl⟩ |
      ⟨uid, text, b, hev, hds, hTid, hBol, hdrv, hnospam, rfl⟩
    · rcases hchange with hc | hc <;> exact absurd rfl hc
    · rcases hchange with hc | hc <;> exact absurd rfl hc
    · rcases hchange with hc | hc <;> exact absurd rfl hc
    · exact ⟨uid, text, b, hev, hds, hTid, hBol, hdrv, hnospam, rfl, rfl, rfl⟩
  · intro uid text tid hds hl1 hl2 htid
    have hroute : stepMsg { st with now := st.now + 1 } uid text
        = process_task_id { st with now := st.now + 1 } uid text :=
      stepMsg_send_task_id hds hl1 hl2
    have htid'' : ((process_task_id { st with now := st.now + 1 } uid text).1.sessions uid).data.taskId
        = some tid := by
      have h0 : ((stepMsg { st with now := st.now + 1 } uid text).1.sessions uid).data.taskId
          = some tid := htid
      rw [hroute] at h0
      exact h0
    unfold process_task_id at htid''
    dsimp only at htid''
    by_cases hd : ¬ pyIsDigit (pyStrip text) = true
    · rw [if_pos hd] at htid''
      exact Or.inl htid''
    · rw [if_neg hd] at htid''
      cases heq : findTaskOwned st.tasks (digitsToNat (pyStrip text).data) uid with
      | none =>
          rw [heq] at htid''
          exact Or.inl htid''
      | some t0 =>
          rw [heq] at htid''
          have htid3 : some (digitsToNat (pyStrip text).data) = some tid := by
            simpa [setSession] using htid''
          have he : digitsToNat (pyStrip text).data = tid := Option.some.inj htid3
          have hmem := List.mem_of_find?_eq_some heq
          have hp := List.find?_some heq
          simp only [Bool.and_eq_true, beq_iff_eq] at hp
          exact Or.inr ⟨t0, hmem, he ▸ hp.1.1, hp.1.2, hp.2⟩

theorem claim_C4_witness :
    ∃ uid text b, (Event.msg 1 "TRL-9") = .msg uid text ∧
      (getSession (run init evsSD).sessions uid).dstate = some DState.SEND_TRAILER ∧
      (getSession (run init evsSD).sessions uid).data.taskId = some 1 ∧
      (getSession (run init evsSD).sessions uid).data.bol = some b ∧
      uid = taskTaken1.driverId ∧ isSpamField (pyStrip text) = false ∧
      taskSD1.status = taskTaken1.status ∧ taskSD1.managerId = taskTaken1.managerId ∧
      taskSD1 = { taskTaken1 with bolNumber := some b, trailerNumber := some (pyStrip text), updatedAt := (run init evsSD).now + 1 } :=
  (claim_C4_amended (run init evsSD) ⟨evsSD, rfl⟩).2.1 (.msg 1 "TRL-9") 1 taskTaken1 taskSD1
    (by decide) (by decide) (Or.inl (by decide))

/-- C5 counterexample: the claim transition does not refresh updated_at.  In
evsTaken the claim runs at clock 7 and changes the status of task 1, yet the
row still carries updated_at 6, its creation time. -/
theorem claim_C5_counterexample :
    findTask (run init evsTask).tasks 1 = some taskCreated1 ∧
    findTask (run init evsTaken).tasks 1 = some taskTaken1 ∧
    taskCreated1.status = "created" ∧ taskTaken1.status = "in_progress" ∧
    (run init evsTaken).now = 7 ∧ taskTaken1.updatedAt = 6 := by
  refine ⟨by decide, by decide, rfl, rfl, by decide, rfl⟩

/-- C5 amended: the complete and submit-delivery-data mutations go through the
update_task helper and refresh updated_at to the current clock; the claim
mutation is a direct UPDATE of status and manager id that leaves updated_at
untouched. -/
theorem claim_C5_amended (st : BotState) :
    (∀ m name tid t, findTask st.tasks tid = some t → t.status = "created" →
       ([t.taskType, t.status, t.bolNumber.getD "", t.trailerNumber.getD ""].any isSpamField) = false →
       ∃ t', findTask (step st (.takeCb m name tid)).1.tasks tid = some t' ∧
         t'.status = "in_progress" ∧ t'.updatedAt = t.updatedAt) ∧
    (∀ m name tid t, findTask st.tasks tid = some t → t.managerId = some m →
       ∃ t', findTask (step st (.finishCb m name tid)).1.tasks tid = some t' ∧
         t'.status = "completed" ∧ t'.updatedAt = st.now + 1) ∧
    (∀ uid text tid b, (getSession st.sessions uid).dstate = some DState.SEND_TRAILER →
       text ∉ taskTypeLabels → text ≠ "Send Data" →
       (getSession st.sessions uid).data.taskId = some tid →
       (getSession st.sessions uid).data.bol = some b →
       isSpamField (pyStrip text) = false →
       ∀ t, findTask st.tasks tid = some t →
       ∃ t', findTask (step st (.msg uid text)).1.tasks tid = some t' ∧
         t'.bolNumber = some b ∧ t'.trailerNumber = some (pyStrip text) ∧
         t'.updatedAt = st.now + 1) := by
  refine ⟨?_, ?_, ?_⟩
  · intro m name tid t ht hs hclean
    have ht' : findTask ({ st with now := st.now + 1 } : BotState).tasks tid = some t := ht
    have htasks : (take_task { st with now := st.now + 1 } m name tid).1.tasks
        = updateTasks st.tasks tid (fun x => { x with status := "in_progress", managerId := some m }) := by
      unfold take_task
      rw [ht']
      dsimp only
      rw [if_neg (by simp [hclean]), if_neg (not_not_intro hs)]
      cases findDriver st.drivers t.driverId <;> rfl
    refine ⟨{ t with status := "in_progress", managerId := some m }, ?_, rfl, rfl⟩
    show findTask (take_task { st with now := st.now + 1 } m name tid).1.tasks tid = some _
    rw [htasks, findTask_update_take, ht]
    show some (if t.taskId = tid then _ else t) = some _
    rw [if_pos (findTask_mem ht).2]
  · intro m name tid t ht hm
    have ht' : findTask ({ st with now := st.now + 1 } : BotState).tasks tid = some t := ht
    have htasks : (finish_task { st with now := st.now + 1 } m name tid).1.tasks
        = update_task st.tasks tid (st.now + 1) (fun x => { x with status := "completed" }) := by
      unfold finish_task
      rw [ht']
      dsimp only
      rw [if_neg (not_not_intro hm)]
      cases findDriver st.drivers t.driverId <;> rfl
    refine ⟨{ t with status := "completed", updatedAt := st.now + 1 }, ?_, rfl, rfl⟩
    show findTask (finish_task { st with now := st.now + 1 } m name tid).1.tasks tid = some _
    rw [htasks, findTask_update_finish, ht]
    show some (if t.taskId = tid then _ else t) = some _
    rw [if_pos (findTask_mem ht).2]
  · intro uid text tid b hds hl1 hl2 hTid hBol hns t ht
    have hroute : stepMsg { st with now := st.now + 1 } uid text
        = process_trailer { st with now := st.now + 1 } uid text :=
      stepMsg_send_trailer hds hl1 hl2
    have hTid' : (getSession ({ st with now := st.now + 1 } : BotState).sessions uid).data.taskId
        = some tid := hTid
    have hBol' : (getSession ({ st with now := st.now + 1 } : BotState).sessions uid).data.bol
        = some b := hBol
    have htasks : (process_trailer { st with now := st.now + 1 } uid text).1.tasks
        = update_task st.tasks tid (st.now + 1)
            (fun x => { x with bolNumber := some b, trailerNumber := some (pyStrip text) }) := by
      unfold process_trailer
      dsimp only
      rw [hTid', hBol']
      dsimp only
      rw [if_neg (by simp [hns])]
      repeat' split
      all_goals rfl
    refine ⟨{ t with bolNumber := some b, trailerNumber := some (pyStrip text), updatedAt := st.now + 1 }, ?_, rfl, rfl, rfl⟩
    show findTask (stepMsg { st with now := st.now + 1 } uid text).1.tasks tid = some _
    rw [hroute, htasks, findTask_update_data, ht]
    show some (if t.taskId = tid then _ else t) = some _
    rw [if_pos (findTask_mem ht).2]

theorem claim_C5_witness :
    ∃ t', findTask (step (run init evsTask) (.takeCb 500 "Mgr" 1)).1.tasks 1 = some t' ∧
      t'.status = "in_progress" ∧ t'.updatedAt = taskCreated1.updatedAt :=
  (claim_C5_amended (run init evsTask)).1 500 "Mgr" 1 taskCreated1
    (by decide) (by decide) (by decide)

/-- C6 counterexample: a user with no driver row who sends Edit Profile does
enter the edit state machine (state EDIT_COMPANY), contradicting the claim
that the edit dialog requires an existing driver record. -/
theorem claim_C6_counterexample :
    findDriver (run init [.msg 7 "Edit Profile"]).drivers 7 = none ∧
    (getSession (run init [.msg 7 "Edit Profile"]).sessions 7).dstate
      = some DState.EDIT_COMPANY := by
  constructor
  · decide
  · decide

/-- C6 amended: the Edit Profile trigger enters the edit dialog for any user,
registered or not (whenever the session is not inside the submit-delivery
sub-dialog), leaving the driver table unchanged; and for a user with no
driver row, no step of the edit dialog ever creates or modifies a driver row:
the terminal UPDATE matches no row. -/
theorem claim_C6_amended (st : BotState) (uid : Nat) :
    ((getSession st.sessions uid).dstate ≠ some DState.SEND_TASK_ID →
     (getSession st.sessions uid).dstate ≠ some DState.SEND_BOL →
     (getSession st.sessions uid).dstate ≠ some DState.SEND_TRAILER →
     ((step st (.msg uid "Edit Profile")).1.sessions uid).dstate = some DState.EDIT_COMPANY ∧
     (step st (.msg uid "Edit Profile")).1.drivers = st.drivers) ∧
    (∀ text, findDriver st.drivers uid = none →
       ((getSession st.sessions uid).dstate = some DState.EDIT_COMPANY ∨
        (getSession st.sessions uid).dstate = some DState.EDIT_FULL_NAME ∨
        (getSession st.sessions uid).dstate = some DState.EDIT_PHONE ∨
        (getSession st.sessions uid).dstate = some DState.EDIT_TRUCK) →
       (step st (.msg uid text)).1.drivers = st.drivers) := by
  constructor
  · intro hn1 hn2 hn3
    have hroute : stepMsg { st with now := st.now + 1 } uid "Edit Profile"
        = edit_data { st with now := st.now + 1 } uid :=
      stepMsg_edit_profile hn1 hn2 hn3
    constructor
    · show ((stepMsg { st with now := st.now + 1 } uid "Edit Profile").1.sessions uid).dstate
        = some DState.EDIT_COMPANY
      rw [hroute]
      show (setSession st.sessions uid _ uid).dstate = some DState.EDIT_COMPANY
      simp [setSession]
    · show (stepMsg { st with now := st.now + 1 } uid "Edit Profile").1.drivers = st.drivers
      rw [hroute]
      rfl
  · intro text hnd hds
    rcases stepMsg_drivers_cases { st with now := st.now + 1 } uid text with
      hunch | ⟨_, hreg⟩ | ⟨hroute, _⟩
    · exact hunch
    · exfalso
      have hreg' : (getSession st.sessions uid).dstate = some DState.REG_TRUCK := hreg
      rcases hds with h | h | h | h <;> (rw [h] at hreg'; exact absurd hreg' (by simp))
    · have hts : (step st (.msg uid text)).1.drivers
          = (process_edit_truck { st with now := st.now + 1 } uid text).1.drivers :=
        congrArg (fun p => p.1.drivers) hroute
      rw [hts]
      unfold process_edit_truck
      dsimp only
      by_cases he : pyStrip text = ""
      · rw [if_pos he]
      · rw [if_neg he]
        cases hc : (getSession st.sessions uid).data.company with
        | none => rfl
        | some c =>
            cases hfn : (getSession st.sessions uid).data.fullName with
            | none => rfl
            | some fn =>
                cases hph : (getSession st.sessions uid).data.phone with
                | none => rfl
                | some ph =>
                    dsimp only
                    by_cases hg : (st.drivers.any (fun d => d.driverId == uid)) ∧ phoneMatch ph = false
                    · rw [if_pos hg]
                    · rw [if_neg hg]
                      show updateDriverRow st.drivers uid c fn ph (pyStrip text) = st.drivers
                      exact updateDriverRow_of_absent hnd c fn ph (pyStrip text)

theorem claim_C6_witness :
    (((step init (.msg 7 "Edit Profile")).1.sessions 7).dstate = some DState.EDIT_COMPANY ∧
     (step init (.msg 7 "Edit Profile")).1.drivers = init.drivers) ∧
    (step (run init evsEdit7) (.msg 7 "TRK")).1.drivers = (run init evsEdit7).drivers :=
  ⟨(claim_C6_amended init 7).1 (by decide) (by decide) (by decide),
   (claim_C6_amended (run init evsEdit7) 7).2 "TRK" (by decide) (by decide)⟩

/-- C7 counterexample: the phone handler strips the text before matching, so
the input with a leading space does not match PHONE_PATTERN yet the dialog
still advances to the truck step and stores the stripped phone, contradicting
"every non-matching input produces a re-prompt and stays at the phone step". -/
theorem claim_C7_counterexample :
    phoneMatch " +12345678901" = false ∧
    (getSession (run init (evsPhone ++ [.msg 1 " +12345678901"])).sessions 1).dstate
      = some DState.REG_TRUCK ∧
    (getSession (run init (evsPhone ++ [.msg 1 " +12345678901"])).sessions 1).data.phone
      = some "+12345678901" := by
  refine ⟨by decide, by decide, by decide⟩

/-- C7 amended: at the registration phone step (for text routed to it), an
input whose stripped form matches PHONE_PATTERN is stored stripped in the
session and the dialog advances to the truck step; an input whose stripped
form does not match is re-prompted, the session is unchanged and nothing is
persisted. -/
theorem claim_C7_amended (st : BotState) (uid : Nat) (text : String)
    (hds : (getSession st.sessions uid).dstate = some DState.REG_PHONE)
    (h1 : text ∉ taskTypeLabels) (h2 : text ≠ "Send Data") (h3 : text ≠ "Check Status")
    (h4 : text ≠ "/start") (h5 : text ≠ "/cancel") (h6 : text ≠ "/menu")
    (h7 : text ≠ "‚öôÔ∏è Settings") (h8 : text ≠ "Edit Profile") :
    (phoneMatch (pyStrip text) = true →
       ((step st (.msg uid text)).1.sessions uid).dstate = some DState.REG_TRUCK ∧
       ((step st (.msg uid text)).1.sessions uid).data.phone = some (pyStrip text) ∧
       (step st (.msg uid text)).1.tasks = st.tasks ∧
       (step st (.msg uid text)).1.drivers = st.drivers ∧
       (step st (.msg uid text)).2 = [.toInvoker "Enter truck number:"]) ∧
    (phoneMatch (pyStrip text) = false →
       (step st (.msg uid text)).1.sessions uid = st.sessions uid ∧
       (step st (.msg uid text)).1.tasks = st.tasks ∧
       (step st (.msg uid text)).1.drivers = st.drivers ∧
       (step st (.msg uid text)).2
         = [.toInvoker "‚ùå Invalid phone format. Example: +71234567890"]) := by
  have hroute : stepMsg { st with now := st.now + 1 } uid text
      = process_phone { st with now := st.now + 1 } uid text :=
    stepMsg_reg_phone hds h1 h2 h3 h4 h5 h6 h7 h8
  constructor
  · intro hm
    have hkey : process_phone { st with now := st.now + 1 } uid text
        = ({ st with now := st.now + 1, sessions := setSession st.sessions uid ⟨some DState.REG_TRUCK, { (st.sessions uid).data with phone := some (pyStrip text) }⟩ }, [.toInvoker "Enter truck number:"]) := by
      unfold process_phone
      dsimp only
      rw [if_neg (not_not_intro hm)]
      rfl
    refine ⟨?_, ?_, ?_, ?_, ?_⟩
    · show ((stepMsg { st with now := st.now + 1 } uid text).1.sessions uid).dstate = _
      rw [hroute, hkey]
      show (setSession st.sessions uid _ uid).dstate = _
      simp [setSession]
    · show ((stepMsg { st with now := st.now + 1 } uid text).1.sessions uid).data.phone = _
      rw [hroute, hkey]
      show (setSession st.sessions uid _ uid).data.phone = _
      simp [setSession]
    · show (stepMsg { st with now := st.now + 1 } uid text).1.tasks = _
      rw [hroute, hkey]
    · show (stepMsg { st with now := st.now + 1 } uid text).1.drivers = _
      rw [hroute, hkey]
    · show (stepMsg { st with now := st.now + 1 } uid text).2 = _
      rw [hroute, hkey]
  · intro hm
    have hkey : process_phone { st with now := st.now + 1 } uid text
        = ({ st with now := st.now + 1 },
           [.toInvoker "‚ùå Invalid phone format. Example: +71234567890"]) := by
      unfold process_phone
      dsimp only
      rw [if_pos (by simp [hm])]
    refine ⟨?_, ?_, ?_, ?_⟩
    · show (stepMsg { st with now := st.now + 1 } uid text).1.sessions uid = _
      rw [hroute, hkey]
    · show (stepMsg { st with now := st.now + 1 } uid text).1.tasks = _
      rw [hroute, hkey]
    · show (stepMsg { st with now := st.now + 1 } uid text).1.drivers = _
      rw [hroute, hkey]
    · show (stepMsg { st with now := st.now + 1 } uid text).2 = _
      rw [hroute, hkey]

theorem claim_C7_witness :
    ((step (run init evsPhone) (.msg 1 "+19998887766")).1.sessions 1).dstate
      = some DState.REG_TRUCK ∧
    ((step (run init evsPhone) (.msg 1 "+19998887766")).1.sessions 1).data.phone
      = some (pyStrip "+19998887766") ∧
    (step (run init evsPhone) (.msg 1 "+19998887766")).1.tasks = (run init evsPhone).tasks ∧
    (step (run init evsPhone) (.msg 1 "+19998887766")).1.drivers = (run init evsPhone).drivers ∧
    (step (run init evsPhone) (.msg 1 "+19998887766")).2 = [.toInvoker "Enter truck number:"] :=
  (claim_C7_amended (run init evsPhone) 1 "+19998887766" (by decide) (by decide) (by decide)
    (by decide) (by decide) (by decide) (by decide) (by decide) (by decide)).1 (by decide)

/-- C8: at the trailer step of the submit-delivery sub-dialog, a trailer value
containing a denylisted token (case-insensitively, as the filter lowercases
the field) is rejected with the re-prompt, and the task table, the driver
table and the session are left unchanged: no BOL and no trailer is written. -/
theorem claim_C8 (st : BotState) (uid : Nat) (text : String) (tid : Nat) (b : String)
    (hds : (getSession st.sessions uid).dstate = some DState.SEND_TRAILER)
    (hTid : (getSession st.sessions uid).data.taskId = some tid)
    (hBol : (getSession st.sessions uid).data.bol = some b)
    (h1 : text ∉ taskTypeLabels) (h2 : text ≠ "Send Data")
    (hspam : isSpamField (pyStrip text) = true) :
    (step st (.msg uid text)).1.tasks = st.tasks ∧
    (step st (.msg uid text)).1.drivers = st.drivers ∧
    (step st (.msg uid text)).1.sessions uid = st.sessions uid ∧
    (step st (.msg uid text)).2 = [.toInvoker "Invalid trailer number. Please try again."] := by
  have hroute : stepMsg { st with now := st.now + 1 } uid text
      = process_trailer { st with now := st.now + 1 } uid text :=
    stepMsg_send_trailer hds h1 h2
  have hTid' : (getSession ({ st with now := st.now + 1 } : BotState).sessions uid).data.taskId
      = some tid := hTid
  have hBol' : (getSession ({ st with now := st.now + 1 } : BotState).sessions uid).data.bol
      = some b := hBol
  have hkey : process_trailer { st with now := st.now + 1 } uid text
      = ({ st with now := st.now + 1 }, [.toInvoker "Invalid trailer number. Please try again."]) := by
    unfold process_trailer
    dsimp only
    rw [hTid', hBol']
    dsimp only
    rw [if_pos hspam]
  refine ⟨?_, ?_, ?_, ?_⟩
  · show (stepMsg { st with now := st.now + 1 } uid text).1.tasks = _
    rw [hroute, hkey]
  · show (stepMsg { st with now := st.now + 1 } uid text).1.drivers = _
    rw [hroute, hkey]
  · show (stepMsg { st with now := st.now + 1 } uid text).1.sessions uid = _
    rw [hroute, hkey]
  · show (stepMsg { st with now := st.now + 1 } uid text).2 = _
    rw [hroute, hkey]

theorem claim_C8_witness :
    (step (run init evsSD) (.msg 1 "my VPN trailer")).1.tasks = (run init evsSD).tasks ∧
    (step (run init evsSD) (.msg 1 "my VPN trailer")).1.drivers = (run init evsSD).drivers ∧
    (step (run init evsSD) (.msg 1 "my VPN trailer")).1.sessions 1 = (run init evsSD).sessions 1 ∧
    (step (run init evsSD) (.msg 1 "my VPN trailer")).2
      = [.toInvoker "Invalid trailer number. Please try again."] :=
  claim_C8 (run init evsSD) 1 "my VPN trailer" 1 "12345678" (by decide) (by decide) (by decide)
    (by decide) (by decide) (by decide)

/-- C9: the take_task claim is a separate fetch followed by an unconditional
UPDATE.  In the interleaving where managers 1 and 2 both fetch the created
task before either updates, both pass the in-Python status check on their
snapshots, both run the UPDATE, and both are answered "Task taken!"; the last
writer owns the task.  Exactly-once claiming is violated: the check-and-set is
not an atomic conditional mutation. -/
theorem claim_C9_race :
    (Conc.crun Conc.cinit Conc.raceTrace).replies
      = [(1, "Task taken!"), (2, "Task taken!")] ∧
    (Conc.crun Conc.cinit Conc.raceTrace).task
      = { taskType := "Check", status := "in_progress", managerId := some 2,
          bolNumber := none, trailerNumber := none } := by
  constructor
  · decide
  · decide

/-- C10: free-text inputs of the registration and edit dialogs are stripped
before validation, so a whitespace-only message is rejected as empty: the step
re-prompts, the session stays put and nothing is persisted; consequently no
stored company, full name or truck number carries leading or trailing
whitespace. -/
theorem claim_C10 (st : BotState) (hr : Reachable st) :
    (∀ d ∈ st.drivers, pyStrip d.company = d.company ∧ pyStrip d.fullName = d.fullName ∧
       pyStrip d.truckNumber = d.truckNumber) ∧
    (∀ uid text ds, pyStrip text = "" →
       (ds = DState.REG_COMPANY ∨ ds = DState.REG_FULL_NAME ∨ ds = DState.REG_TRUCK ∨
        ds = DState.EDIT_COMPANY ∨ ds = DState.EDIT_FULL_NAME ∨ ds = DState.EDIT_TRUCK) →
       (getSession st.sessions uid).dstate = some ds →
       (step st (.msg uid text)).1.tasks = st.tasks ∧
       (step st (.msg uid text)).1.drivers = st.drivers ∧
       (step st (.msg uid text)).1.sessions uid = st.sessions uid ∧
       (step st (.msg uid text)).2 = [.toInvoker (emptyReprompt ds)]) := by
  have hInv := reachable_inv hr
  constructor
  · intro d hd
    have h0 := hInv.driver_ok d hd
    exact ⟨h0.company_ok.1, h0.name_ok.1, h0.truck_ok.1⟩
  · intro uid text ds hempty hds6 hds
    have hnotlab : text ∉ taskTypeLabels := by
      intro hmem
      have hne : pyStrip text ≠ "" := by
        simp only [taskTypeLabels, List.mem_cons, List.not_mem_nil, or_false] at hmem
        rcases hmem with rfl | rfl | rfl | rfl | rfl | rfl | rfl <;> decide
      exact hne hempty
    have hsd : text ≠ "Send Data" := ne_of_pyStrip_empty hempty (by decide)
    have hcs : text ≠ "Check Status" := ne_of_pyStrip_empty hempty (by decide)
    have hst : text ≠ "/start" := ne_of_pyStrip_empty hempty (by decide)
    have hcl : text ≠ "/cancel" := ne_of_pyStrip_empty hempty (by decide)
    have hmn : text ≠ "/menu" := ne_of_pyStrip_empty hempty (by decide)
    have hset : text ≠ "‚öôÔ∏è Settings" := ne_of_pyStrip_empty hempty (by decide)
    have hep : text ≠ "Edit Profile" := ne_of_pyStrip_empty hempty (by decide)
    rcases hds6 with hds0 | hds0 | hds0 | hds0 | hds0 | hds0
    · subst hds0
      have hroute : stepMsg { st with now := st.now + 1 } uid text
          = process_company { st with now := st.now + 1 } uid text :=
        stepMsg_reg_company hds hnotlab hsd hcs hst hcl hmn hset hep
      have hkey : process_company { st with now := st.now + 1 } uid text
          = ({ st with now := st.now + 1 }, [.toInvoker "Company name cannot be empty."]) := by
        unfold process_company
        dsimp only
        rw [if_pos hempty]
      refine ⟨?_, ?_, ?_, ?_⟩
      · show (stepMsg { st with now := st.now + 1 } uid text).1.tasks = _
        rw [hroute, hkey]
      · show (stepMsg { st with now := st.now + 1 } uid text).1.drivers = _
        rw [hroute, hkey]
      · show (stepMsg { st with now := st.now + 1 } uid text).1.sessions uid = _
        rw [hroute, hkey]
      · show (stepMsg { st with now := st.now + 1 } uid text).2 = _
        rw [hroute, hkey]
        rfl
    · subst hds0
      have hroute : stepMsg { st with now := st.now + 1 } uid text
          = process_full_name { st with now := st.now + 1 } uid text :=
        stepMsg_reg_full_name hds hnotlab hsd hcs hst hcl hmn hset hep
      have hkey : process_full_name { st with now := st.now + 1 } uid text
          = ({ st with now := st.now + 1 }, [.toInvoker "Full name cannot be empty."]) := by
        unfold process_full_name
        dsimp only
        rw [if_pos hempty]
      refine ⟨?_, ?_, ?_, ?_⟩
      · show (stepMsg { st with now := st.now + 1 } uid text).1.tasks = _
        rw [hroute, hkey]
      · show (stepMsg { st with now := st.now + 1 } uid text).1.drivers = _
        rw [hroute, hkey]
      · show (stepMsg { st with now := st.now + 1 } uid text).1.sessions uid = _
        rw [hroute, hkey]
      · show (stepMsg { st with now := st.now + 1 } uid text).2 = _
        rw [hroute, hkey]
        rfl
    · subst hds0
      have hroute : stepMsg { st with now := st.now + 1 } uid text
          = process_truck { st with now := st.now + 1 } uid text :=
        stepMsg_reg_truck hds hnotlab hsd hcs hst hcl hmn hset hep
      have hkey : process_truck { st with now := st.now + 1 } uid text
          = ({ st with now := st.now + 1 }, [.toInvoker "Truck number cannot be empty."]) := by
        unfold process_truck
        dsimp only
        rw [if_pos hempty]
      refine ⟨?_, ?_, ?_, ?_⟩
      · show (stepMsg { st with now := st.now + 1 } uid text).1.tasks = _
        rw [hroute, hkey]
      · show (stepMsg { st with now := st.now + 1 } uid text).1.drivers = _
        rw [hroute, hkey]
      · show (stepMsg { st with now := st.now + 1 } uid text).1.sessions uid = _
        rw [hroute, hkey]
      · show (stepMsg { st with now := st.now + 1 } uid text).2 = _
        rw [hroute, hkey]
        rfl
    · subst hds0
      have hroute : stepMsg { st with now := st.now + 1 } uid text
          = process_edit_company { st with now := st.now + 1 } uid text :=
        stepMsg_edit_company hds hnotlab hsd hcs hst hcl hmn hset hep
      have hkey : process_edit_company { st with now := st.now + 1 } uid text
          = ({ st with now := st.now + 1 }, [.toInvoker "Company name cannot be empty."]) := by
        unfold process_edit_company
        dsimp only
        rw [if_pos hempty]
      refine ⟨?_, ?_, ?_, ?_⟩
      · show (stepMsg { st with now := st.now + 1 } uid text).1.tasks = _
        rw [hroute, hkey]
      · show (stepMsg { st with now := st.now + 1 } uid text).1.drivers = _
        rw [hroute, hkey]
      · show (stepMsg { st with now := st.now + 1 } uid text).1.sessions uid = _
        rw [hroute, hkey]
      · show (stepMsg { st with now := st.now + 1 } uid text).2 = _
        rw [hroute, hkey]
        rfl
    · subst hds0
      have hroute : stepMsg { st with now := st.now + 1 } uid text
          = process_edit_full_name { st with now := st.now + 1 } uid text :=
        stepMsg_edit_full_name hds hnotlab hsd hcs hst hcl hmn hset hep
      have hkey : process_edit_full_name { st with now := st.now + 1 } uid text
          = ({ st with now := st.now + 1 }, [.toInvoker "Full name cannot be empty."]) := by
        unfold process_edit_full_name
        dsimp only
        rw [if_pos hempty]
      refine ⟨?_, ?_, ?_, ?_⟩
      · show (stepMsg { st with now := st.now + 1 } uid text).1.tasks = _
        rw [hroute, hkey]
      · show (stepMsg { st with now := st.now + 1 } uid text).1.drivers = _
        rw [hroute, hkey]
      · show (stepMsg { st with now := st.now + 1 } uid text).1.sessions uid = _
        rw [hroute, hkey]
      · show (stepMsg { st with now := st.now + 1 } uid text).2 = _
        rw [hroute, hkey]
        rfl
    · subst hds0
      have hroute : stepMsg { st with now := st.now + 1 } uid text
          = process_edit_truck { st with now := st.now + 1 } uid text :=
        stepMsg_edit_truck hds hnotlab hsd hcs hst hcl hmn hset hep
      have hkey : process_edit_truck { st with now := st.now + 1 } uid text
          = ({ st with now := st.now + 1 }, [.toInvoker "Truck number cannot be empty."]) := by
        unfold process_edit_truck
        dsimp only
        rw [if_pos hempty]
      refine ⟨?_, ?_, ?_, ?_⟩
      · show (stepMsg { st with now := st.now + 1 } uid text).1.tasks = _
        rw [hroute, hkey]
      · show (stepMsg { st with now := st.now + 1 } uid text).1.drivers = _
        rw [hroute, hkey]
      · show (stepMsg { st with now := st.now + 1 } uid text).1.sessions uid = _
        rw [hroute, hkey]
      · show (stepMsg { st with now := st.now + 1 } uid text).2 = _
        rw [hroute, hkey]
        rfl

theorem claim_C10_witness :
    (pyStrip "Acme" = "Acme" ∧ pyStrip "Jane Doe" = "Jane Doe" ∧
     pyStrip "T-100" = "T-100") ∧
    ((step (run init [.msg 2 "/start"]) (.msg 2 "   ")).1.tasks
       = (run init [.msg 2 "/start"]).tasks ∧
     (step (run init [.msg 2 "/start"]) (.msg 2 "   ")).1.drivers
       = (run init [.msg 2 "/start"]).drivers ∧
     (step (run init [.msg 2 "/start"]) (.msg 2 "   ")).1.sessions 2
       = (run init [.msg 2 "/start"]).sessions 2 ∧
     (step (run init [.msg 2 "/start"]) (.msg 2 "   ")).2
       = [.toInvoker (emptyReprompt DState.REG_COMPANY)]) :=
  ⟨(claim_C10 (run init evsReg) ⟨evsReg, rfl⟩).1
      ⟨1, "Acme", "Jane Doe", "+12345678901", "T-100"⟩ (by decide),
   (claim_C10 (run init [.msg 2 "/start"]) ⟨[.msg 2 "/start"], rfl⟩).2 2 "   "
      DState.REG_COMPANY (by decide) (Or.inl rfl) (by decide)⟩

end TrackBot
